import Mathlib

/-!
Verification of the Flo synthetic biometric pipeline.

This file embeds, over exact rational arithmetic, the core of
scripts/generate_synthetic_healthkit.py (the per-entity day generator and the
stratified aggregator) and scripts/fetch_nhanes_biomarkers.py (the parametric
baseline generator), and settles the specification claims about them.

Modelling conventions:

* Python floats are modelled as rationals; every arithmetic step of the source
  is mirrored exactly.
* Calls to np.random.normal / np.random.uniform / random.gauss are modelled by
  passing the realised draw as an explicit argument: a run consumes a stream of
  realised draw values (a list of rationals).  Where a claim refers to the
  standard-deviation argument handed to the sampler, that argument is embedded
  as its own definition.
* Python dictionaries are association lists; a failing dictionary lookup
  (KeyError in the source) is Option.none.
* Python round(x, d) rounds half to even on IEEE doubles; pyRound below is the
  exact rational counterpart.  The concrete inputs used in this file stay away
  from half-way points, where the decimal and binary notions could differ.
-/

set_option maxRecDepth 200000

namespace Flo

/-- Round half to even at integer resolution (the semantics of the Python
built-in round on an exact value). -/
def pyRound (x : ℚ) : ℤ :=
  if x - ⌊x⌋ < 1/2 then ⌊x⌋
  else if 1/2 < x - ⌊x⌋ then ⌊x⌋ + 1
  else if ⌊x⌋ % 2 = 0 then ⌊x⌋ else ⌊x⌋ + 1

/-- Python round(x, d): scale by a power of ten, round half to even, unscale. -/
def roundTo (d : ℕ) (x : ℚ) : ℚ := (pyRound (x * 10 ^ d) : ℚ) / 10 ^ d

/-- Python int(): truncation toward zero. -/
def ratTrunc (x : ℚ) : ℤ := if 0 ≤ x then ⌊x⌋ else ⌈x⌉

/-! ### POPULATION_PARAMS, CIRCADIAN_PATTERNS and DAY_PATTERNS
(generate_synthetic_healthkit.py, lines 35-155) -/

/-- A (mean, std) entry of POPULATION_PARAMS. -/
structure Dist where
  mean : ℚ
  std : ℚ
deriving DecidableEq

/-- A (mean, std, min, max) entry (the spo2 row declares explicit bounds). -/
structure DistB where
  mean : ℚ
  std : ℚ
  mn : ℚ
  mx : ℚ
deriving DecidableEq

/-- POPULATION_PARAMS hrv_sdnn: age group to sex to distribution. -/
def hrv_sdnn_params : List (String × List (String × Dist)) :=
  [ ("18-29", [("male", ⟨55, 20⟩), ("female", ⟨50, 18⟩)]),
    ("30-39", [("male", ⟨50, 18⟩), ("female", ⟨45, 16⟩)]),
    ("40-49", [("male", ⟨42, 15⟩), ("female", ⟨40, 14⟩)]),
    ("50-59", [("male", ⟨35, 12⟩), ("female", ⟨35, 12⟩)]),
    ("60-69", [("male", ⟨30, 10⟩), ("female", ⟨30, 10⟩)]),
    ("70+",   [("male", ⟨25, 8⟩),  ("female", ⟨25, 8⟩)]) ]

/-- POPULATION_PARAMS resting_hr, keyed by activity level. -/
def resting_hr_params : List (String × Dist) :=
  [ ("sedentary", ⟨75, 8⟩), ("moderate", ⟨68, 7⟩),
    ("active", ⟨62, 6⟩), ("athletic", ⟨55, 5⟩) ]

/-- POPULATION_PARAMS sleep_duration, keyed by age group. -/
def sleep_duration_params : List (String × Dist) :=
  [ ("18-29", ⟨7.2, 1.2⟩), ("30-39", ⟨7.0, 1.1⟩), ("40-49", ⟨6.8, 1.0⟩),
    ("50-59", ⟨6.6, 1.0⟩), ("60-69", ⟨6.5, 1.1⟩), ("70+", ⟨6.3, 1.2⟩) ]

/-- POPULATION_PARAMS sleep_stages: per-stage fraction distributions.  The
stage fraction draws are modelled by their realised values, so this table is
carried as data only. -/
def sleep_stage_params : List (String × Dist) :=
  [ ("deep", ⟨0.15, 0.05⟩), ("rem", ⟨0.22, 0.04⟩),
    ("core", ⟨0.50, 0.08⟩), ("awake", ⟨0.08, 0.03⟩) ]

/-- POPULATION_PARAMS daily_steps, keyed by activity level. -/
def daily_steps_params : List (String × Dist) :=
  [ ("sedentary", ⟨3500, 1500⟩), ("moderate", ⟨7000, 2000⟩),
    ("active", ⟨10000, 2500⟩), ("athletic", ⟨14000, 3000⟩) ]

/-- POPULATION_PARAMS active_calories, keyed by activity level. -/
def active_calories_params : List (String × Dist) :=
  [ ("sedentary", ⟨200, 80⟩), ("moderate", ⟨400, 120⟩),
    ("active", ⟨600, 150⟩), ("athletic", ⟨900, 200⟩) ]

/-- POPULATION_PARAMS respiratory_rate. -/
def respiratory_rate_params : List (String × Dist) := [("normal", ⟨14, 2⟩)]

/-- POPULATION_PARAMS spo2 (with explicit min and max). -/
def spo2_params : List (String × DistB) := [("healthy", ⟨97.5, 1.0, 94, 100⟩)]

/-- POPULATION_PARAMS distance_km, keyed by activity level (consumed only
through get_distance, which derives distance from steps, so carried as data). -/
def distance_km_params : List (String × Dist) :=
  [ ("sedentary", ⟨2.5, 1.2⟩), ("moderate", ⟨5.0, 1.8⟩),
    ("active", ⟨8.0, 2.5⟩), ("athletic", ⟨12.0, 3.5⟩) ]

/-- CIRCADIAN_PATTERNS heart_rate (hour 0 to 23). -/
def circadian_heart_rate : List ℚ :=
  [ 0.92, 0.90, 0.88, 0.87, 0.86, 0.88,
    0.92, 0.98, 1.02, 1.05, 1.06, 1.05,
    1.04, 1.03, 1.05, 1.08, 1.10, 1.08,
    1.05, 1.02, 0.98, 0.95, 0.94, 0.93 ]

/-- CIRCADIAN_PATTERNS hrv (hour 0 to 23). -/
def circadian_hrv : List ℚ :=
  [ 1.15, 1.18, 1.20, 1.22, 1.20, 1.15,
    1.05, 0.95, 0.88, 0.85, 0.85, 0.88,
    0.90, 0.92, 0.88, 0.85, 0.85, 0.88,
    0.92, 0.95, 1.00, 1.05, 1.10, 1.12 ]

/-- CIRCADIAN_PATTERNS activity (hour 0 to 23; carried as data, no getter
reads it). -/
def circadian_activity : List ℚ :=
  [ 0.05, 0.02, 0.01, 0.01, 0.02, 0.05,
    0.15, 0.25, 0.40, 0.55, 0.60, 0.50,
    0.45, 0.55, 0.60, 0.65, 0.70, 0.75,
    0.65, 0.50, 0.35, 0.20, 0.10, 0.08 ]

/-- DAY_PATTERNS steps_multiplier, indexed by weekday (Monday = 0). -/
def steps_multiplier : List ℚ := [0.85, 1.00, 1.00, 1.00, 0.95, 0.80, 0.75]

/-- DAY_PATTERNS sleep_multiplier, indexed by weekday (Monday = 0). -/
def sleep_multiplier : List ℚ := [0.95, 1.00, 1.00, 1.00, 1.00, 1.15, 1.10]

/-! ### VirtualPerson (lines 158-268)

A person's demographic labels and its persistent individual offsets.  The
offsets are drawn once in the constructor from zero-mean normals; here they
are the already-realised values.  typical_bedtime and wake_variation are
assigned in the constructor but never read by any generator method, so they
are not carried. -/

structure Person where
  person_id : ℕ
  age_group : String
  sex : String
  activity_level : String
  hrv_offset : ℚ
  hr_offset : ℚ
  sleep_offset : ℚ
  activity_offset : ℚ
deriving DecidableEq

/-- The nested POPULATION_PARAMS hrv_sdnn lookup of get_hrv. -/
def hrvLookup (age sex : String) : Option Dist :=
  (List.lookup age hrv_sdnn_params).bind fun row => List.lookup sex row

/-- VirtualPerson.get_hrv (lines 185-191).  noise is the realised
np.random.normal(0, params std * 0.5) draw. -/
def get_hrv (p : Person) (hour : ℕ) (noise : ℚ) : Option ℚ :=
  (hrvLookup p.age_group p.sex).bind fun d =>
  (circadian_hrv.get? hour).map fun c =>
    max 10 (d.mean * (1 + p.hrv_offset) * c + noise)

/-- The standard deviation handed to np.random.normal inside get_hrv. -/
def get_hrv_noise_sigma (age sex : String) : Option ℚ :=
  (hrvLookup age sex).map fun d => d.std * 0.5

/-- VirtualPerson.get_resting_hr (lines 193-199). -/
def get_resting_hr (p : Person) (hour : ℕ) (noise : ℚ) : Option ℚ :=
  (List.lookup p.activity_level resting_hr_params).bind fun d =>
  (circadian_heart_rate.get? hour).map fun c =>
    max 40 (min 100 (d.mean * (1 + p.hr_offset) * c + noise))

/-- The standard deviation handed to np.random.normal inside get_resting_hr. -/
def get_resting_hr_noise_sigma (level : String) : Option ℚ :=
  (List.lookup level resting_hr_params).map fun d => d.std * 0.3

/-- VirtualPerson.get_sleep_duration (lines 201-207). -/
def get_sleep_duration (p : Person) (dow : ℕ) (noise : ℚ) : Option ℚ :=
  (List.lookup p.age_group sleep_duration_params).bind fun d =>
  (sleep_multiplier.get? dow).map fun w =>
    max 3 (min 12 (d.mean * (1 + p.sleep_offset) * w + noise))

/-- The four absolute stage durations produced by get_sleep_stages. -/
structure SleepStages where
  deep_minutes : ℚ
  rem_minutes : ℚ
  core_minutes : ℚ
  awake_minutes : ℚ
deriving DecidableEq

/-- VirtualPerson.get_sleep_stages (lines 209-234).  deepDraw, remDraw and
awakeDraw are the realised np.random.normal(stage mean, stage std) draws; the
deep, rem and awake fractions are floored at 0.05, 0.10 and 0.02, and the core
fraction is whatever remains of 1. -/
def get_sleep_stages (total_sleep_hours deepDraw remDraw awakeDraw : ℚ) :
    SleepStages :=
  let total_mins := total_sleep_hours * 60
  let deep_pct := max 0.05 deepDraw
  let rem_pct := max 0.10 remDraw
  let awake_pct := max 0.02 awakeDraw
  let core_pct := 1 - deep_pct - rem_pct - awake_pct
  { deep_minutes := total_mins * deep_pct
    rem_minutes := total_mins * rem_pct
    core_minutes := total_mins * core_pct
    awake_minutes := total_mins * awake_pct }

/-- VirtualPerson.get_daily_steps (lines 236-242); int() truncates. -/
def get_daily_steps (p : Person) (dow : ℕ) (noise : ℚ) : Option ℤ :=
  (List.lookup p.activity_level daily_steps_params).bind fun d =>
  (steps_multiplier.get? dow).map fun w =>
    max 500 (ratTrunc (d.mean * (1 + p.activity_offset) * w + noise))

/-- The standard deviation handed to np.random.normal inside get_daily_steps. -/
def get_daily_steps_noise_sigma (level : String) : Option ℚ :=
  (List.lookup level daily_steps_params).map fun d => d.std * 0.5

/-- VirtualPerson.get_active_calories (lines 244-250). -/
def get_active_calories (p : Person) (dow : ℕ) (noise : ℚ) : Option ℚ :=
  (List.lookup p.activity_level active_calories_params).bind fun d =>
  (steps_multiplier.get? dow).map fun w =>
    max 50 (d.mean * (1 + p.activity_offset) * w + noise)

/-- VirtualPerson.get_respiratory_rate (lines 252-255); draw is the realised
np.random.normal(mean, std) sample. -/
def get_respiratory_rate (draw : ℚ) : Option ℚ :=
  (List.lookup "normal" respiratory_rate_params).map fun _ =>
    max 8 (min 22 draw)

/-- VirtualPerson.get_spo2 (lines 257-261). -/
def get_spo2 (draw : ℚ) : Option ℚ :=
  (List.lookup "healthy" spo2_params).map fun d =>
    max d.mn (min d.mx draw)

/-- VirtualPerson.get_distance (lines 263-268); u is the realised
np.random.uniform(0.9, 1.1) stride variation. -/
def get_distance (p : Person) (steps : ℤ) (u : ℚ) : ℚ :=
  (steps : ℚ) * ((if p.sex == "female" then (0.75 : ℚ) else 0.78) * u) / 1000

/-! ### generate_person_data (lines 271-325) -/

/-- One element of a record's hourly_samples list. -/
structure HourlySample where
  hour : ℕ
  heart_rate : ℚ
  hrv : ℚ
deriving DecidableEq

/-- One generated daily record.  The date is carried as a day index (the
source formats it as a string, which is serialization-boundary behaviour);
person_id carries the synthetic_ prefixed identifier. -/
structure BiometricRecord where
  person_id : String
  date : ℕ
  age_group : String
  sex : String
  activity_level : String
  sleep_duration_hours : ℚ
  deep_sleep_minutes : ℚ
  rem_sleep_minutes : ℚ
  core_sleep_minutes : ℚ
  awake_minutes : ℚ
  daily_steps : ℤ
  active_calories : ℚ
  distance_km : ℚ
  respiratory_rate : ℚ
  spo2 : ℚ
  resting_heart_rate : ℚ
  hrv_sdnn : ℚ
  hourly_samples : List HourlySample
deriving DecidableEq

/-- The hourly-sample loop of generate_person_data (lines 313-321): for each
listed hour, draw a heart-rate noise and an hrv noise from the stream and
record the rounded samples. -/
def hourly_loop (p : Person) : List ℕ → List ℚ → Option (List HourlySample × List ℚ)
  | [], rng => some ([], rng)
  | h :: hs, rng =>
      (get_resting_hr p h (rng.headD 0)).bind fun hr =>
      (get_hrv p h (rng.tail.headD 0)).bind fun hv =>
      (hourly_loop p hs rng.tail.tail).map fun pr =>
        (⟨h, roundTo 1 hr, roundTo 1 hv⟩ :: pr.1, pr.2)

/-- The per-day body of generate_person_data (lines 276-323): consume the
day's draws in source order, evaluate every getter (a failed parameter lookup
aborts the whole run, modelled by none) and build the rounded record. -/
def generate_day (p : Person) (dateIdx dow : ℕ) (rng0 : List ℚ) :
    Option (BiometricRecord × List ℚ) :=
  let sleepNoise := rng0.headD 0
  let rng1 := rng0.tail
  let deepDraw := rng1.headD 0
  let rng2 := rng1.tail
  let remDraw := rng2.headD 0
  let rng3 := rng2.tail
  let awakeDraw := rng3.headD 0
  let rng4 := rng3.tail
  let stepsNoise := rng4.headD 0
  let rng5 := rng4.tail
  let calNoise := rng5.headD 0
  let rng6 := rng5.tail
  let distU := rng6.headD 0
  let rng7 := rng6.tail
  let respDraw := rng7.headD 0
  let rng8 := rng7.tail
  let spo2Draw := rng8.headD 0
  let rng9 := rng8.tail
  let rhrNoise := rng9.headD 0
  let rng10 := rng9.tail
  let hrvNoise := rng10.headD 0
  let rng11 := rng10.tail
  (get_sleep_duration p dow sleepNoise).bind fun sleep_hours =>
  (get_daily_steps p dow stepsNoise).bind fun steps =>
  (get_active_calories p dow calNoise).bind fun cal =>
  (get_respiratory_rate respDraw).bind fun resp =>
  (get_spo2 spo2Draw).bind fun spo2v =>
  (get_resting_hr p 7 rhrNoise).bind fun rhr =>
  (get_hrv p 3 hrvNoise).bind fun hrv3 =>
  (hourly_loop p [7, 12, 18, 22] rng11).map fun pr =>
    ({ person_id := "synthetic_" ++ toString p.person_id
       date := dateIdx
       age_group := p.age_group
       sex := p.sex
       activity_level := p.activity_level
       sleep_duration_hours := roundTo 2 sleep_hours
       deep_sleep_minutes :=
         roundTo 1 (get_sleep_stages sleep_hours deepDraw remDraw awakeDraw).deep_minutes
       rem_sleep_minutes :=
         roundTo 1 (get_sleep_stages sleep_hours deepDraw remDraw awakeDraw).rem_minutes
       core_sleep_minutes :=
         roundTo 1 (get_sleep_stages sleep_hours deepDraw remDraw awakeDraw).core_minutes
       awake_minutes :=
         roundTo 1 (get_sleep_stages sleep_hours deepDraw remDraw awakeDraw).awake_minutes
       daily_steps := steps
       active_calories := roundTo 1 cal
       distance_km := roundTo 2 (get_distance p steps distU)
       respiratory_rate := roundTo 1 resp
       spo2 := roundTo 1 spo2v
       resting_heart_rate := roundTo 1 rhr
       hrv_sdnn := roundTo 1 hrv3
       hourly_samples := pr.1 }, pr.2)

/-- The day loop of generate_person_data: one record per day offset, the
weekday advancing with the date. -/
def genLoop (p : Person) (startIdx startDow : ℕ) :
    ℕ → ℕ → List ℚ → Option (List BiometricRecord)
  | 0, _, _ => some []
  | days + 1, offset, rng =>
      (generate_day p (startIdx + offset) ((startDow + offset) % 7) rng).bind fun pr =>
      (genLoop p startIdx startDow days (offset + 1) pr.2).map fun rest =>
        pr.1 :: rest

/-- generate_person_data (lines 271-325): startIdx is the day index of
start_date and startDow its weekday (Monday = 0). -/
def generate_person_data (p : Person) (startIdx startDow days : ℕ)
    (rng : List ℚ) : Option (List BiometricRecord) :=
  genLoop p startIdx startDow days 0 rng

/-! ### compute_population_baselines (lines 328-414)

The aggregator runs on a nonempty record set (pandas raises a KeyError on an
empty frame, so the source is only defined there); theorems carry the
nonemptiness hypothesis where it matters.  None of the eleven aggregated
columns can hold NaN, so the dropna() in stats() is the identity and is not
modelled. -/

/-- One emitted statistics entry (the dict literal of stats(), lines 342-355).
np.std is the square root of the population variance; the square root of a
rational is irrational in general, so the std field carries the variance.  No
claim refers to the magnitude of std. -/
structure StatsEntry where
  n : ℕ
  mean : ℚ
  std : ℚ
  median : ℚ
  p5 : ℚ
  p10 : ℚ
  p25 : ℚ
  p75 : ℚ
  p90 : ℚ
  p95 : ℚ
  min : ℚ
  max : ℚ
deriving DecidableEq

/-- The field names of the dict literal returned by stats(), in literal
order.  Used to compare the empirical entry shape with the parametric one. -/
def stats_keys : List String :=
  ["n", "mean", "std", "median", "p5", "p10", "p25", "p75", "p90", "p95",
   "min", "max"]

/-- numpy sorts before computing order statistics; the algorithm is
irrelevant, only the sorted multiset matters. -/
def sortVals (xs : List ℚ) : List ℚ := xs.insertionSort (· ≤ ·)

/-- Linear interpolation between order statistics of a sorted list at a real
position pos: with i the integer part, a[i] + (pos - i) * (a[i+1] - a[i]).
Out-of-range fetches default (they are unreachable for positions inside
[0, length - 1], which callers guarantee). -/
def interpAt (a : List ℚ) (pos : ℚ) : ℚ :=
  a.getD (⌊pos⌋).toNat 0 +
    (pos - ((⌊pos⌋).toNat : ℚ)) *
      (a.getD ((⌊pos⌋).toNat + 1) (a.getD (⌊pos⌋).toNat 0) -
        a.getD (⌊pos⌋).toNat 0)

/-- np.percentile(a, q) with the default linear interpolation: the position is
q / 100 * (length - 1). -/
def percentileSorted (a : List ℚ) (q : ℚ) : ℚ :=
  interpAt a (q * ((a.length : ℚ) - 1) / 100)

/-- Percentile of an unsorted value multiset, as np.percentile computes it. -/
def percentileOf (xs : List ℚ) (q : ℚ) : ℚ := percentileSorted (sortVals xs) q

/-- stats() (lines 338-355): None (suppression) below five samples, else the
descriptive-statistics entry.  np.median equals the 50th percentile under
linear interpolation. -/
def stats (xs : List ℚ) : Option StatsEntry :=
  if xs.length < 5 then none
  else some
    { n := xs.length
      mean := xs.sum / xs.length
      std := (xs.map fun x => (x - xs.sum / xs.length) ^ 2).sum / xs.length
      median := percentileOf xs 50
      p5 := percentileOf xs 5
      p10 := percentileOf xs 10
      p25 := percentileOf xs 25
      p75 := percentileOf xs 75
      p90 := percentileOf xs 90
      p95 := percentileOf xs 95
      min := (sortVals xs).headD 0
      max := (sortVals xs).getLastD 0 }

/-- The metrics list of compute_population_baselines (lines 332-336). -/
def metricsList : List String :=
  ["sleep_duration_hours", "deep_sleep_minutes", "rem_sleep_minutes",
   "core_sleep_minutes", "daily_steps", "active_calories", "distance_km",
   "respiratory_rate", "spo2", "resting_heart_rate", "hrv_sdnn"]

/-- Column extraction from a record (every record carries every metric, so
the in-columns test of the source succeeds on a nonempty frame). -/
def columnOf (m : String) (r : BiometricRecord) : ℚ :=
  if m == "sleep_duration_hours" then r.sleep_duration_hours
  else if m == "deep_sleep_minutes" then r.deep_sleep_minutes
  else if m == "rem_sleep_minutes" then r.rem_sleep_minutes
  else if m == "core_sleep_minutes" then r.core_sleep_minutes
  else if m == "daily_steps" then (r.daily_steps : ℚ)
  else if m == "active_calories" then r.active_calories
  else if m == "distance_km" then r.distance_km
  else if m == "respiratory_rate" then r.respiratory_rate
  else if m == "spo2" then r.spo2
  else if m == "resting_heart_rate" then r.resting_heart_rate
  else r.hrv_sdnn

/-- The value series of one metric over a record set. -/
def seriesOf (records : List BiometricRecord) (m : String) : List ℚ :=
  records.map (columnOf m)

/-- The per-cell metric map of the guarded cuts (by sex, by age group, by
activity level): a metric key is inserted only when stats() returned an entry
(the if s: guard, lines 375-377 etc.). -/
def metricCell (records : List BiometricRecord) : List (String × StatsEntry) :=
  metricsList.filterMap fun m => (stats (seriesOf records m)).map fun e => (m, e)

/-- The global cut (lines 365-368): every metric key is assigned, with the
possibly-None result of stats() as its value (no guard). -/
def globalTree (records : List BiometricRecord) :
    List (String × Option StatsEntry) :=
  if records.isEmpty then []
  else metricsList.map fun m => (m, stats (seriesOf records m))

/-- The by-sex cut (lines 370-377). -/
def bySexTree (records : List BiometricRecord) :
    List (String × List (String × StatsEntry)) :=
  ["male", "female"].map fun sex =>
    (sex, metricCell (records.filter fun r => r.sex == sex))

/-- First-occurrence-order deduplication (pandas Series.unique and Python
dict key insertion order). -/
def uniqueFirst {α : Type} [BEq α] : List α → List α
  | [] => []
  | x :: xs => x :: uniqueFirst (xs.filter fun y => y != x)
termination_by l => l.length
decreasing_by
  simp only [List.length_cons]
  exact Nat.lt_succ_of_le (List.length_filter_le _ _)

/-- The by-age-group cut (lines 379-387), keyed by the unique age groups of
the record set. -/
def byAgeTree (records : List BiometricRecord) :
    List (String × List (String × StatsEntry)) :=
  (uniqueFirst (records.map fun r => r.age_group)).map fun g =>
    (g, metricCell (records.filter fun r => r.age_group == g))

/-- The by-activity-level cut (lines 389-397). -/
def byActivityTree (records : List BiometricRecord) :
    List (String × List (String × StatsEntry)) :=
  (uniqueFirst (records.map fun r => r.activity_level)).map fun l =>
    (l, metricCell (records.filter fun r => r.activity_level == l))

/-- The hours encountered across all hourly samples, in first-occurrence
order (the insertion order of the hourly_data dicts, lines 400-407). -/
def hoursIn (records : List BiometricRecord) : List ℕ :=
  uniqueFirst ((records.flatMap fun r => r.hourly_samples).map fun s => s.hour)

/-- The per-hour value list of one hourly metric. -/
def hourValues (f : HourlySample → ℚ) (records : List BiometricRecord)
    (h : ℕ) : List ℚ :=
  ((records.flatMap fun r => r.hourly_samples).filter fun s => s.hour == h).map f

/-- One by_hour subtree (lines 409-412): keys are stringified hours and the
value is the unguarded, possibly-None stats() result. -/
def byHourTree (f : HourlySample → ℚ) (records : List BiometricRecord) :
    List (String × Option StatsEntry) :=
  (hoursIn records).map fun h => (toString h, stats (hourValues f records h))

/-! ### fetch_nhanes_biomarkers.py: the parametric baseline path -/

/-- A (mean, std) distribution of BIOMARKER_DISTRIBUTIONS (by_sex / by_age
entries). -/
structure NDist where
  mean : ℚ
  std : ℚ
deriving DecidableEq

/-- A global biomarker distribution: mean, std and the optional explicit
bounds (the source reads them with dict get and a plus-or-minus three sigma
default). -/
structure NGlobalDist where
  mean : ℚ
  std : ℚ
  mn : Option ℚ
  mx : Option ℚ
deriving DecidableEq

/-- One biomarker's configuration in BIOMARKER_DISTRIBUTIONS. -/
structure NConfig where
  unit : String
  glob : NGlobalDist
  by_sex : List (String × NDist)
  by_age : List (String × NDist)
deriving DecidableEq

/-- The percentile set produced by generate_percentiles (lines 243-253). -/
structure NPercentiles where
  p5 : ℚ
  p10 : ℚ
  p25 : ℚ
  p50 : ℚ
  p75 : ℚ
  p90 : ℚ
  p95 : ℚ
deriving DecidableEq

/-- generate_percentiles (lines 243-253): inverse standard-normal quantiles
scaled by std, rounded to three decimals. -/
def generate_percentiles (mean std : ℚ) : NPercentiles :=
  { p5 := roundTo 3 (mean - 1.645 * std)
    p10 := roundTo 3 (mean - 1.282 * std)
    p25 := roundTo 3 (mean - 0.674 * std)
    p50 := roundTo 3 mean
    p75 := roundTo 3 (mean + 0.674 * std)
    p90 := roundTo 3 (mean + 1.282 * std)
    p95 := roundTo 3 (mean + 1.645 * std) }

/-- The key list of the generate_percentiles dict literal, in order. -/
def percentile_keys : List String :=
  ["p5", "p10", "p25", "p50", "p75", "p90", "p95"]

/-- The by-sex distribution lookup of generate_baselines (line 285):
config by_sex get(sex) falling back to the global distribution (only its mean
and std are consumed downstream). -/
def sexDist (c : NConfig) (sex : String) : NDist :=
  (List.lookup sex c.by_sex).getD ⟨c.glob.mean, c.glob.std⟩

/-- The by-age distribution lookup of generate_baselines (line 295), with the
same global fallback. -/
def ageDist (c : NConfig) (g : String) : NDist :=
  (List.lookup g c.by_age).getD ⟨c.glob.mean, c.glob.std⟩

/-- The numeric fields of one by_sex baseline entry (lines 287-292), as the
association list the dict literal builds: mean, std, n = 2500, then the
spliced percentile set. -/
def nhanes_by_sex_entry (c : NConfig) (sex : String) : List (String × ℚ) :=
  let d := sexDist c sex
  let P := generate_percentiles d.mean d.std
  [("mean", d.mean), ("std", d.std), ("n", 2500),
   ("p5", P.p5), ("p10", P.p10), ("p25", P.p25), ("p50", P.p50),
   ("p75", P.p75), ("p90", P.p90), ("p95", P.p95)]

/-- The key list of a by_sex (and equally by_age_group and by_age_and_sex)
parametric entry. -/
def nhanes_by_sex_keys : List String :=
  ["mean", "std", "n"] ++ percentile_keys

/-- The key list of a global parametric entry (lines 274-282): mean, std,
min, max, unit, n, then the percentile set.  The unit value is a string, so
only the key list is modelled at value level. -/
def nhanes_global_keys : List String :=
  ["mean", "std", "min", "max", "unit", "n"] ++ percentile_keys

/-- BIOMARKER_DISTRIBUTIONS (lines 31-240). -/
def biomarker_distributions : List (String × NConfig) :=
  [ ("total_cholesterol",
     { unit := "mg/dL", glob := ⟨191, 41, some 100, some 350⟩,
       by_sex := [("male", ⟨189, 42⟩), ("female", ⟨193, 40⟩)],
       by_age := [("18-29", ⟨173, 34⟩), ("30-39", ⟨188, 38⟩),
                  ("40-49", ⟨201, 42⟩), ("50-59", ⟨207, 44⟩),
                  ("60-69", ⟨199, 42⟩), ("70+", ⟨193, 40⟩)] }),
    ("hdl_cholesterol",
     { unit := "mg/dL", glob := ⟨54, 16, some 20, some 100⟩,
       by_sex := [("male", ⟨47, 13⟩), ("female", ⟨58, 15⟩)],
       by_age := [("18-29", ⟨52, 14⟩), ("30-39", ⟨51, 14⟩),
                  ("40-49", ⟨53, 15⟩), ("50-59", ⟨55, 16⟩),
                  ("60-69", ⟨57, 17⟩), ("70+", ⟨56, 16⟩)] }),
    ("ldl_cholesterol",
     { unit := "mg/dL", glob := ⟨112, 35, some 40, some 250⟩,
       by_sex := [("male", ⟨116, 36⟩), ("female", ⟨109, 34⟩)],
       by_age := [("18-29", ⟨97, 28⟩), ("30-39", ⟨111, 33⟩),
                  ("40-49", ⟨121, 37⟩), ("50-59", ⟨122, 38⟩),
                  ("60-69", ⟨114, 36⟩), ("70+", ⟨109, 34⟩)] }),
    ("triglycerides",
     { unit := "mg/dL", glob := ⟨132, 90, some 40, some 500⟩,
       by_sex := [("male", ⟨145, 100⟩), ("female", ⟨120, 75⟩)],
       by_age := [("18-29", ⟨98, 60⟩), ("30-39", ⟨124, 80⟩),
                  ("40-49", ⟨147, 95⟩), ("50-59", ⟨150, 100⟩),
                  ("60-69", ⟨138, 85⟩), ("70+", ⟨125, 70⟩)] }),
    ("hba1c",
     { unit := "%", glob := ⟨5.5, 0.8, some 4.0, some 12.0⟩,
       by_sex := [("male", ⟨5.55, 0.85⟩), ("female", ⟨5.48, 0.75⟩)],
       by_age := [("18-29", ⟨5.2, 0.4⟩), ("30-39", ⟨5.3, 0.5⟩),
                  ("40-49", ⟨5.5, 0.7⟩), ("50-59", ⟨5.7, 0.9⟩),
                  ("60-69", ⟨5.9, 1.0⟩), ("70+", ⟨5.8, 0.9⟩)] }),
    ("fasting_glucose",
     { unit := "mg/dL", glob := ⟨102, 28, some 60, some 300⟩,
       by_sex := [("male", ⟨105, 30⟩), ("female", ⟨99, 25⟩)],
       by_age := [("18-29", ⟨92, 12⟩), ("30-39", ⟨96, 18⟩),
                  ("40-49", ⟨102, 25⟩), ("50-59", ⟨108, 32⟩),
                  ("60-69", ⟨110, 35⟩), ("70+", ⟨106, 30⟩)] }),
    ("crp",
     { unit := "mg/L", glob := ⟨2.1, 3.5, some 0.1, some 30.0⟩,
       by_sex := [("male", ⟨1.9, 3.2⟩), ("female", ⟨2.3, 3.8⟩)],
       by_age := [("18-29", ⟨1.2, 2.0⟩), ("30-39", ⟨1.6, 2.5⟩),
                  ("40-49", ⟨2.0, 3.0⟩), ("50-59", ⟨2.5, 4.0⟩),
                  ("60-69", ⟨3.0, 4.5⟩), ("70+", ⟨3.2, 5.0⟩)] }),
    ("creatinine",
     { unit := "mg/dL", glob := ⟨0.95, 0.25, some 0.4, some 2.0⟩,
       by_sex := [("male", ⟨1.05, 0.22⟩), ("female", ⟨0.85, 0.18⟩)],
       by_age := [("18-29", ⟨0.90, 0.18⟩), ("30-39", ⟨0.92, 0.20⟩),
                  ("40-49", ⟨0.95, 0.22⟩), ("50-59", ⟨0.98, 0.25⟩),
                  ("60-69", ⟨1.02, 0.28⟩), ("70+", ⟨1.08, 0.32⟩)] }),
    ("wbc",
     { unit := "1000 cells/uL", glob := ⟨7.2, 2.0, some 3.0, some 15.0⟩,
       by_sex := [("male", ⟨6.9, 1.9⟩), ("female", ⟨7.5, 2.1⟩)],
       by_age := [("18-29", ⟨7.0, 1.8⟩), ("30-39", ⟨7.1, 1.9⟩),
                  ("40-49", ⟨7.2, 2.0⟩), ("50-59", ⟨7.3, 2.1⟩),
                  ("60-69", ⟨7.1, 2.0⟩), ("70+", ⟨6.8, 1.9⟩)] }),
    ("rbc",
     { unit := "million cells/uL", glob := ⟨4.8, 0.5, some 3.5, some 6.5⟩,
       by_sex := [("male", ⟨5.1, 0.45⟩), ("female", ⟨4.5, 0.40⟩)],
       by_age := [("18-29", ⟨4.9, 0.5⟩), ("30-39", ⟨4.85, 0.48⟩),
                  ("40-49", ⟨4.8, 0.48⟩), ("50-59", ⟨4.75, 0.50⟩),
                  ("60-69", ⟨4.7, 0.52⟩), ("70+", ⟨4.6, 0.55⟩)] }),
    ("hemoglobin",
     { unit := "g/dL", glob := ⟨14.0, 1.5, some 10.0, some 18.0⟩,
       by_sex := [("male", ⟨15.0, 1.2⟩), ("female", ⟨13.2, 1.1⟩)],
       by_age := [("18-29", ⟨14.2, 1.4⟩), ("30-39", ⟨14.1, 1.4⟩),
                  ("40-49", ⟨14.0, 1.5⟩), ("50-59", ⟨13.9, 1.5⟩),
                  ("60-69", ⟨13.7, 1.5⟩), ("70+", ⟨13.4, 1.6⟩)] }),
    ("hematocrit",
     { unit := "%", glob := ⟨42, 4.5, some 30, some 55⟩,
       by_sex := [("male", ⟨44.5, 3.5⟩), ("female", ⟨39.5, 3.2⟩)],
       by_age := [("18-29", ⟨42.5, 4.2⟩), ("30-39", ⟨42.2, 4.3⟩),
                  ("40-49", ⟨42.0, 4.5⟩), ("50-59", ⟨41.8, 4.6⟩),
                  ("60-69", ⟨41.2, 4.7⟩), ("70+", ⟨40.5, 4.8⟩)] }),
    ("platelets",
     { unit := "1000 cells/uL", glob := ⟨250, 60, some 100, some 450⟩,
       by_sex := [("male", ⟨235, 55⟩), ("female", ⟨265, 60⟩)],
       by_age := [("18-29", ⟨260, 58⟩), ("30-39", ⟨255, 58⟩),
                  ("40-49", ⟨250, 60⟩), ("50-59", ⟨245, 60⟩),
                  ("60-69", ⟨240, 62⟩), ("70+", ⟨235, 65⟩)] }) ]

/-! ### The cohort construction of main() (lines 436-441) -/

/-- The age-group rotation list of main(). -/
def main_age_groups : List String :=
  ["18-29", "30-39", "40-49", "50-59", "60-69", "70+"]

/-- The demographic cell main() assigns to entity i:
age_groups[i mod 6] and male when i is even, female when i is odd. -/
def cohortCell (i : ℕ) : String × String :=
  (main_age_groups.getD (i % main_age_groups.length) "",
   if i % 2 == 0 then "male" else "female")

/-! ### Concrete inputs used by witnesses and counterexamples -/

/-- A person in the 18-29 male moderate cell with all individual offsets
zero. -/
def pC1 : Person := ⟨0, "18-29", "male", "moderate", 0, 0, 0, 0⟩

/-- A person whose age-group label is absent from every parameter table. -/
def pBadAge : Person := ⟨1, "80+", "male", "moderate", 0, 0, 0, 0⟩

/-- Draws making the three floored stage fractions sum to 1.1: deep 0.5,
rem 0.4, awake 0.2, so the core fraction is forced to -0.1. -/
def drawsC1 : List ℚ := [0, 0.5, 0.4, 0.2] ++ List.replicate 15 0

/-- Draws giving sleep_hours = 7.123 and ordinary stage fractions
(deep 0.15, rem 0.22, awake 0.08). -/
def drawsC2 : List ℚ := [-0.077, 0.15, 0.22, 0.08] ++ List.replicate 15 0

/-- An all-zero draw stream covering one generated day (18 draws). -/
def drawsW : List ℚ := List.replicate 19 0

/-- A null record used only as a getD default. -/
def zeroRecord : BiometricRecord :=
  ⟨"", 0, "", "", "", 0, 0, 0, 0, 0, 0, 0, 0, 0, 0, 0, 0, []⟩

/-- The concrete day generated from pC1 with the all-zero stream. -/
def dayW : BiometricRecord × List ℚ :=
  (generate_day pC1 0 1 drawsW).getD (zeroRecord, [])

/-- The concrete one-day run used by the C10 witness. -/
def genW : List BiometricRecord := (generate_person_data pC1 0 0 1 drawsW).getD []

/-- One fixed record and a four-element record set (below the suppression
threshold of five). -/
def rec0 : BiometricRecord :=
  ⟨"synthetic_0", 0, "18-29", "male", "moderate", 7, 60, 90, 200, 30, 7000,
   400, 5, 14, 97, 68, 50, []⟩

def records4 : List BiometricRecord := List.replicate 4 rec0

/-- A nine-element record set (above threshold) of male records. -/
def records9 : List BiometricRecord := List.replicate 9 rec0

/-- A record carrying one hourly sample (hour 7), and a four-record set of
them: enough to populate the by_hour tree while staying below the
suppression threshold. -/
def rec1 : BiometricRecord :=
  ⟨"synthetic_1", 0, "18-29", "male", "moderate", 7, 60, 90, 200, 30, 7000,
   400, 5, 14, 97, 68, 50, [⟨7, 70, 50⟩]⟩

def recordsH : List BiometricRecord := List.replicate 4 rec1

/-- An empty biomarker configuration (getD default only). -/
def emptyNConfig : NConfig := ⟨"", ⟨0, 0, none, none⟩, [], []⟩

/-- The total_cholesterol configuration of BIOMARKER_DISTRIBUTIONS. -/
def cholConfig : NConfig :=
  (List.lookup "total_cholesterol" biomarker_distributions).getD emptyNConfig

/-- The empirical entry computed from [1, 2, 3, 4, 5]. -/
def xs5 : List ℚ := [1, 2, 3, 4, 5]

def statsW : StatsEntry :=
  (stats xs5).getD ⟨0, 0, 0, 0, 0, 0, 0, 0, 0, 0, 0, 0⟩

/-! ### Rounding lemmas -/

theorem floor_le_pyRound (x : ℚ) : ⌊x⌋ ≤ pyRound x := by
  unfold pyRound
  split_ifs <;> omega

theorem pyRound_le_floor_add_one (x : ℚ) : pyRound x ≤ ⌊x⌋ + 1 := by
  unfold pyRound
  split_ifs <;> omega

theorem pyRound_mono {x y : ℚ} (h : x ≤ y) : pyRound x ≤ pyRound y := by
  rcases lt_or_eq_of_le (Int.floor_mono h) with hf | hf
  · exact le_trans (pyRound_le_floor_add_one x)
      (le_trans (Int.add_one_le_iff.mpr hf) (floor_le_pyRound y))
  · have hr : x - (⌊x⌋ : ℚ) ≤ y - (⌊x⌋ : ℚ) := by linarith
    unfold pyRound
    rw [← hf]
    split_ifs <;> first | omega | linarith

theorem pyRound_intCast (n : ℤ) : pyRound (n : ℚ) = n := by
  unfold pyRound
  norm_num [Int.floor_intCast]

theorem abs_pyRound_sub_le (x : ℚ) : |(pyRound x : ℚ) - x| ≤ 1/2 := by
  have h1 : (⌊x⌋ : ℚ) ≤ x := Int.floor_le x
  have h2 : x < ⌊x⌋ + 1 := Int.lt_floor_add_one x
  unfold pyRound
  split_ifs <;> rw [abs_le] <;> constructor <;> push_cast <;> linarith

theorem roundTo_mono (d : ℕ) {x y : ℚ} (h : x ≤ y) : roundTo d x ≤ roundTo d y := by
  unfold roundTo
  have hp : (0:ℚ) < 10 ^ d := by positivity
  refine div_le_div_of_nonneg_right ?_ (le_of_lt hp)
  exact_mod_cast pyRound_mono (mul_le_mul_of_nonneg_right h (le_of_lt hp))

theorem roundTo_intCast (d : ℕ) (n : ℤ) : roundTo d (n : ℚ) = n := by
  unfold roundTo
  have h : ((n : ℚ) * 10 ^ d) = ((n * 10 ^ d : ℤ) : ℚ) := by push_cast; ring
  have hp : (0:ℚ) < 10 ^ d := by positivity
  rw [h, pyRound_intCast]
  push_cast
  field_simp

theorem abs_roundTo_sub_le (d : ℕ) (x : ℚ) : |roundTo d x - x| ≤ 1 / (2 * 10 ^ d) := by
  have hp : (0:ℚ) < 10 ^ d := by positivity
  have h := abs_pyRound_sub_le (x * 10 ^ d)
  have h2 : roundTo d x - x = ((pyRound (x * 10 ^ d) : ℚ) - x * 10 ^ d) / 10 ^ d := by
    unfold roundTo
    field_simp
    ring
  rw [h2, abs_div, abs_of_pos hp, div_le_div_iff₀ hp (by positivity)]
  nlinarith [abs_nonneg ((pyRound (x * 10 ^ d) : ℚ) - x * 10 ^ d)]

theorem le_roundTo_of_int_le (d : ℕ) (a : ℤ) {x : ℚ} (h : (a : ℚ) ≤ x) :
    (a : ℚ) ≤ roundTo d x := by
  calc (a:ℚ) = roundTo d a := (roundTo_intCast d a).symm
    _ ≤ roundTo d x := roundTo_mono d h

theorem roundTo_le_of_le_int (d : ℕ) (a : ℤ) {x : ℚ} (h : x ≤ (a : ℚ)) :
    roundTo d x ≤ (a : ℚ) := by
  calc roundTo d x ≤ roundTo d a := roundTo_mono d h
    _ = (a:ℚ) := roundTo_intCast d a

/-! ### Order-statistics lemmas -/

theorem getD_in_range {a : List ℚ} {i : ℕ} (hi : i < a.length) (d : ℚ) :
    a.getD i d = a.getD i 0 := by
  rw [List.getD_eq_getElem?_getD, List.getElem?_eq_getElem hi,
      List.getD_eq_getElem?_getD, List.getElem?_eq_getElem hi]
  simp

theorem sorted_getD_mono {a : List ℚ} (ha : a.Sorted (· ≤ ·)) {i j : ℕ}
    (hij : i ≤ j) (hj : j < a.length) : a.getD i 0 ≤ a.getD j 0 := by
  have hi : i < a.length := lt_of_le_of_lt hij hj
  rw [List.getD_eq_getElem?_getD, List.getElem?_eq_getElem hi,
      List.getD_eq_getElem?_getD, List.getElem?_eq_getElem hj]
  simp only [Option.getD_some]
  have := @List.Sorted.rel_get_of_le _ _ _ _ ha ⟨i, hi⟩ ⟨j, hj⟩ hij
  simpa using this

theorem interpAt_mono {a : List ℚ} (ha : a.Sorted (· ≤ ·))
    {p₁ p₂ : ℚ} (h0 : 0 ≤ p₁) (h12 : p₁ ≤ p₂)
    (h2 : p₂ ≤ (a.length : ℚ) - 1) : interpAt a p₁ ≤ interpAt a p₂ := by
  have hf1 : (0:ℤ) ≤ ⌊p₁⌋ := Int.floor_nonneg.mpr h0
  have hf2 : (0:ℤ) ≤ ⌊p₂⌋ := le_trans hf1 (Int.floor_mono h12)
  have hc1 : (((⌊p₁⌋).toNat : ℤ)) = ⌊p₁⌋ := Int.toNat_of_nonneg hf1
  have hc2 : (((⌊p₂⌋).toNat : ℤ)) = ⌊p₂⌋ := Int.toNat_of_nonneg hf2
  have hq1 : (((⌊p₁⌋).toNat : ℚ)) = ((⌊p₁⌋ : ℚ)) := by exact_mod_cast hc1
  have hq2 : (((⌊p₂⌋).toNat : ℚ)) = ((⌊p₂⌋ : ℚ)) := by exact_mod_cast hc2
  have hile1 : (((⌊p₁⌋).toNat : ℚ)) ≤ p₁ := by rw [hq1]; exact Int.floor_le p₁
  have hile2 : (((⌊p₂⌋).toNat : ℚ)) ≤ p₂ := by rw [hq2]; exact Int.floor_le p₂
  have hlt1 : p₁ < (((⌊p₁⌋).toNat : ℚ)) + 1 := by rw [hq1]; exact Int.lt_floor_add_one p₁
  have hii : (⌊p₁⌋).toNat ≤ (⌊p₂⌋).toNat := Int.toNat_le_toNat (Int.floor_mono h12)
  have hi2n : (⌊p₂⌋).toNat < a.length := by
    have hfl : ⌊p₂⌋ ≤ (a.length : ℤ) - 1 := by
      have : ((a.length : ℚ) - 1) = (((a.length : ℤ) - 1 : ℤ) : ℚ) := by push_cast; ring
      have h' := Int.floor_mono h2
      rwa [this, Int.floor_intCast] at h'
    omega
  have hi1n : (⌊p₁⌋).toNat < a.length := lt_of_le_of_lt hii hi2n
  -- the two bracketing values at each position
  have hxy1 : a.getD (⌊p₁⌋).toNat 0 ≤
      a.getD ((⌊p₁⌋).toNat + 1) (a.getD (⌊p₁⌋).toNat 0) := by
    rcases lt_or_ge ((⌊p₁⌋).toNat + 1) a.length with hlt | hge
    · rw [getD_in_range hlt]
      exact sorted_getD_mono ha (Nat.le_succ _) hlt
    · rw [List.getD_eq_default _ _ hge]
  have hxy2 : a.getD (⌊p₂⌋).toNat 0 ≤
      a.getD ((⌊p₂⌋).toNat + 1) (a.getD (⌊p₂⌋).toNat 0) := by
    rcases lt_or_ge ((⌊p₂⌋).toNat + 1) a.length with hlt | hge
    · rw [getD_in_range hlt]
      exact sorted_getD_mono ha (Nat.le_succ _) hlt
    · rw [List.getD_eq_default _ _ hge]
  rcases eq_or_lt_of_le hii with heq | hlt
  · unfold interpAt
    rw [← heq]
    have hmul := mul_le_mul_of_nonneg_right
      (sub_le_sub_right h12 (((⌊p₁⌋).toNat : ℚ)))
      (sub_nonneg.mpr hxy1)
    linarith
  · -- the first interpolant is below its upper bracket, which sits below the
    -- second position's lower bracket
    have hup : interpAt a p₁ ≤
        a.getD ((⌊p₁⌋).toNat + 1) (a.getD (⌊p₁⌋).toNat 0) := by
      unfold interpAt
      have hfr : p₁ - (((⌊p₁⌋).toNat : ℚ)) ≤ 1 := by linarith
      have hmul := mul_le_mul_of_nonneg_right hfr (sub_nonneg.mpr hxy1)
      linarith [hmul]
    have hmid : a.getD ((⌊p₁⌋).toNat + 1) (a.getD (⌊p₁⌋).toNat 0) ≤
        a.getD (⌊p₂⌋).toNat 0 := by
      have hlt' : (⌊p₁⌋).toNat + 1 < a.length :=
        lt_of_le_of_lt hlt hi2n
      rw [getD_in_range hlt']
      exact sorted_getD_mono ha hlt hi2n
    have hlow : a.getD (⌊p₂⌋).toNat 0 ≤ interpAt a p₂ := by
      unfold interpAt
      have hmul := mul_nonneg (sub_nonneg.mpr hile2) (sub_nonneg.mpr hxy2)
      linarith
    linarith

theorem percentileSorted_mono {a : List ℚ} (ha : a.Sorted (· ≤ ·))
    (hn : 1 ≤ a.length) {q₁ q₂ : ℚ} (h0 : 0 ≤ q₁) (h12 : q₁ ≤ q₂)
    (h100 : q₂ ≤ 100) : percentileSorted a q₁ ≤ percentileSorted a q₂ := by
  unfold percentileSorted
  have hn1 : (0:ℚ) ≤ (a.length : ℚ) - 1 := by
    have : (1:ℚ) ≤ (a.length : ℚ) := by exact_mod_cast hn
    linarith
  refine interpAt_mono ha ?_ ?_ ?_
  · positivity
  · apply div_le_div_of_nonneg_right ?_ (by norm_num : (0:ℚ) ≤ 100)
    exact mul_le_mul_of_nonneg_right h12 hn1
  · rw [div_le_iff₀ (by norm_num : (0:ℚ) < 100)]
    nlinarith

/-! ### Structural lemmas about the getters and stats -/

theorem get_resting_hr_bounds {p : Person} {h : ℕ} {n q : ℚ}
    (hq : get_resting_hr p h n = some q) : 40 ≤ q ∧ q ≤ 100 := by
  unfold get_resting_hr at hq
  rw [Option.bind_eq_some] at hq
  obtain ⟨d, -, hq⟩ := hq
  rw [Option.map_eq_some'] at hq
  obtain ⟨c, -, hq⟩ := hq
  subst hq
  exact ⟨le_max_left _ _, max_le (by norm_num) (min_le_left _ _)⟩

theorem get_hrv_lb {p : Person} {h : ℕ} {n q : ℚ}
    (hq : get_hrv p h n = some q) : 10 ≤ q := by
  unfold get_hrv at hq
  rw [Option.bind_eq_some] at hq
  obtain ⟨d, -, hq⟩ := hq
  rw [Option.map_eq_some'] at hq
  obtain ⟨c, -, hq⟩ := hq
  subst hq
  exact le_max_left _ _

theorem get_sleep_duration_bounds {p : Person} {d : ℕ} {n q : ℚ}
    (hq : get_sleep_duration p d n = some q) : 3 ≤ q ∧ q ≤ 12 := by
  unfold get_sleep_duration at hq
  rw [Option.bind_eq_some] at hq
  obtain ⟨a, -, hq⟩ := hq
  rw [Option.map_eq_some'] at hq
  obtain ⟨w, -, hq⟩ := hq
  subst hq
  exact ⟨le_max_left _ _, max_le (by norm_num) (min_le_left _ _)⟩

theorem get_daily_steps_lb {p : Person} {d : ℕ} {n : ℚ} {q : ℤ}
    (hq : get_daily_steps p d n = some q) : 500 ≤ q := by
  unfold get_daily_steps at hq
  rw [Option.bind_eq_some] at hq
  obtain ⟨a, -, hq⟩ := hq
  rw [Option.map_eq_some'] at hq
  obtain ⟨w, -, hq⟩ := hq
  subst hq
  exact le_max_left _ _

theorem get_active_calories_lb {p : Person} {d : ℕ} {n q : ℚ}
    (hq : get_active_calories p d n = some q) : 50 ≤ q := by
  unfold get_active_calories at hq
  rw [Option.bind_eq_some] at hq
  obtain ⟨a, -, hq⟩ := hq
  rw [Option.map_eq_some'] at hq
  obtain ⟨w, -, hq⟩ := hq
  subst hq
  exact le_max_left _ _

theorem get_respiratory_rate_bounds {n q : ℚ}
    (hq : get_respiratory_rate n = some q) : 8 ≤ q ∧ q ≤ 22 := by
  unfold get_respiratory_rate at hq
  rw [Option.map_eq_some'] at hq
  obtain ⟨d, -, hq⟩ := hq
  subst hq
  exact ⟨le_max_left _ _, max_le (by norm_num) (min_le_left _ _)⟩

theorem get_spo2_bounds {n q : ℚ} (hq : get_spo2 n = some q) :
    94 ≤ q ∧ q ≤ 100 := by
  have hL : List.lookup "healthy" spo2_params =
      some (⟨97.5, 1.0, 94, 100⟩ : DistB) := rfl
  unfold get_spo2 at hq
  rw [hL, Option.map_eq_some'] at hq
  obtain ⟨d, hd, hq⟩ := hq
  obtain rfl := (Option.some.injEq _ _).mp hd
  subst hq
  exact ⟨le_max_left _ _, max_le (by norm_num) (min_le_left _ _)⟩

/-- The stage minutes of get_sleep_stages always sum exactly to the total
sleep minutes: the core fraction is defined as the complement of the other
three. -/
theorem get_sleep_stages_sum (th dD rD aD : ℚ) :
    (get_sleep_stages th dD rD aD).deep_minutes +
    (get_sleep_stages th dD rD aD).rem_minutes +
    (get_sleep_stages th dD rD aD).core_minutes +
    (get_sleep_stages th dD rD aD).awake_minutes = th * 60 := by
  unfold get_sleep_stages
  ring

theorem get_sleep_stages_nonneg {th : ℚ} (hth : 0 ≤ th) (dD rD aD : ℚ) :
    0 ≤ (get_sleep_stages th dD rD aD).deep_minutes ∧
    0 ≤ (get_sleep_stages th dD rD aD).rem_minutes ∧
    0 ≤ (get_sleep_stages th dD rD aD).awake_minutes := by
  unfold get_sleep_stages
  refine ⟨?_, ?_, ?_⟩ <;>
    exact mul_nonneg (by positivity) (le_trans (by norm_num) (le_max_left _ _))

theorem stats_length {xs : List ℚ} {e : StatsEntry} (h : stats xs = some e) :
    5 ≤ xs.length ∧ e.n = xs.length := by
  unfold stats at h
  split_ifs at h with hc
  obtain rfl := (Option.some.injEq _ _).mp h
  exact ⟨le_of_not_lt hc, rfl⟩

theorem stats_isSome_of_length (xs : List ℚ) (h : 5 ≤ xs.length) :
    ∃ e, stats xs = some e := by
  unfold stats
  rw [if_neg (not_lt.mpr h)]
  exact ⟨_, rfl⟩

theorem stats_none_iff {xs : List ℚ} : stats xs = none ↔ xs.length < 5 := by
  unfold stats
  split_ifs with hc <;> simp [hc]

theorem stats_percentile_fields {xs : List ℚ} {e : StatsEntry}
    (h : stats xs = some e) :
    e.p5 = percentileOf xs 5 ∧ e.p10 = percentileOf xs 10 ∧
    e.p25 = percentileOf xs 25 ∧ e.median = percentileOf xs 50 ∧
    e.p75 = percentileOf xs 75 ∧ e.p90 = percentileOf xs 90 ∧
    e.p95 = percentileOf xs 95 := by
  unfold stats at h
  split_ifs at h with hc
  obtain rfl := (Option.some.injEq _ _).mp h
  exact ⟨rfl, rfl, rfl, rfl, rfl, rfl, rfl⟩

theorem mem_metricCell {records : List BiometricRecord} {m : String}
    {e : StatsEntry} :
    (m, e) ∈ metricCell records ↔
      m ∈ metricsList ∧ stats (seriesOf records m) = some e := by
  unfold metricCell
  rw [List.mem_filterMap]
  constructor
  · rintro ⟨m', hm', hsome⟩
    rw [Option.map_eq_some'] at hsome
    obtain ⟨e', he', heq⟩ := hsome
    obtain ⟨rfl, rfl⟩ := Prod.mk.injEq _ _ _ _ ▸ heq
    exact ⟨hm', he'⟩
  · rintro ⟨hm, he⟩
    exact ⟨m, hm, by rw [he]; rfl⟩

theorem mem_uniqueFirst {α : Type} [BEq α] {l : List α} {x : α}
    (h : x ∈ uniqueFirst l) : x ∈ l := by
  induction l using uniqueFirst.induct with
  | case1 => simp [uniqueFirst] at h
  | case2 y ys ih =>
      rw [uniqueFirst] at h
      rcases List.mem_cons.mp h with rfl | h'
      · exact List.mem_cons_self _ _
      · exact List.mem_cons_of_mem _ (List.mem_of_mem_filter (ih h'))

/-- uniqueFirst keeps a representative of every element, so membership is
preserved in the other direction as well. -/
theorem mem_uniqueFirst_of_mem {α : Type} [BEq α] [LawfulBEq α] {x : α} :
    ∀ {l : List α}, x ∈ l → x ∈ uniqueFirst l := by
  intro l
  induction l using uniqueFirst.induct with
  | case1 =>
      intro h
      exact absurd h (List.not_mem_nil x)
  | case2 y ys ih =>
      intro h
      rw [uniqueFirst]
      rcases List.mem_cons.mp h with rfl | h'
      · exact List.mem_cons_self _ _
      · by_cases hxy : x = y
        · subst hxy
          exact List.mem_cons_self _ _
        · refine List.mem_cons_of_mem _ (ih ?_)
          rw [List.mem_filter]
          exact ⟨h', by simpa using hxy⟩

/-! ### Structural lemmas about generate_day and the day loop -/

theorem hourly_loop_hours {p : Person} {hs : List ℕ} {rng : List ℚ}
    {samps : List HourlySample} {rng' : List ℚ}
    (h : hourly_loop p hs rng = some (samps, rng')) :
    samps.map (fun s => s.hour) = hs := by
  induction hs generalizing rng samps rng' with
  | nil =>
      unfold hourly_loop at h
      obtain ⟨rfl, rfl⟩ := Prod.mk.injEq _ _ _ _ ▸ (Option.some.injEq _ _).mp h
      rfl
  | cons a as ih =>
      unfold hourly_loop at h
      rw [Option.bind_eq_some] at h
      obtain ⟨hr, -, h⟩ := h
      rw [Option.bind_eq_some] at h
      obtain ⟨hv, -, h⟩ := h
      rw [Option.map_eq_some'] at h
      obtain ⟨pr, hpr, h⟩ := h
      obtain ⟨rfl, rfl⟩ := Prod.mk.injEq _ _ _ _ ▸ h
      simpa using ih hpr

theorem seriesOf_length (records : List BiometricRecord) (m : String) :
    (seriesOf records m).length = records.length := List.length_map _ _

theorem generate_day_hours {p : Person} {dateIdx dow : ℕ} {rng : List ℚ}
    {r : BiometricRecord} {rng' : List ℚ}
    (h : generate_day p dateIdx dow rng = some (r, rng')) :
    r.hourly_samples.map (fun s => s.hour) = [7, 12, 18, 22] := by
  simp only [generate_day] at h
  rw [Option.bind_eq_some] at h
  obtain ⟨sh, hsh, h⟩ := h
  rw [Option.bind_eq_some] at h
  obtain ⟨steps, hsteps, h⟩ := h
  rw [Option.bind_eq_some] at h
  obtain ⟨cal, hcal, h⟩ := h
  rw [Option.bind_eq_some] at h
  obtain ⟨resp, hresp, h⟩ := h
  rw [Option.bind_eq_some] at h
  obtain ⟨spv, hspv, h⟩ := h
  rw [Option.bind_eq_some] at h
  obtain ⟨rhr, hrhr, h⟩ := h
  rw [Option.bind_eq_some] at h
  obtain ⟨hv, hhv, h⟩ := h
  rw [Option.map_eq_some'] at h
  obtain ⟨pr, hpr, h⟩ := h
  obtain ⟨hre, -⟩ := Prod.mk.injEq _ _ _ _ ▸ h
  subst hre
  exact hourly_loop_hours hpr

theorem genLoop_hours {p : Person} {sIdx sDow : ℕ} {days offset : ℕ}
    {rng : List ℚ} {recs : List BiometricRecord}
    (h : genLoop p sIdx sDow days offset rng = some recs) :
    ∀ r ∈ recs, r.hourly_samples.map (fun s => s.hour) = [7, 12, 18, 22] := by
  induction days generalizing offset rng recs with
  | zero =>
      obtain rfl := (Option.some.injEq _ _).mp h
      intro r hr
      exact absurd hr (List.not_mem_nil r)
  | succ d ih =>
      unfold genLoop at h
      rw [Option.bind_eq_some] at h
      obtain ⟨pr, hpr, h⟩ := h
      rw [Option.map_eq_some'] at h
      obtain ⟨rest, hrest, h⟩ := h
      subst h
      intro r hr
      rcases List.mem_cons.mp hr with rfl | hr'
      · exact generate_day_hours hpr
      · exact ih hrest r hr'

theorem mem_globalTree {records : List BiometricRecord} {m : String}
    (hne : records ≠ []) (hm : m ∈ metricsList) :
    (m, stats (seriesOf records m)) ∈ globalTree records := by
  unfold globalTree
  rw [if_neg (by simpa using hne)]
  exact List.mem_map.mpr ⟨m, hm, rfl⟩

theorem mem_globalTree_none_iff {records : List BiometricRecord} {m : String}
    (hne : records ≠ []) (hm : m ∈ metricsList) :
    ((m, (none : Option StatsEntry)) ∈ globalTree records) ↔
      records.length < 5 := by
  unfold globalTree
  rw [if_neg (by simpa using hne), List.mem_map]
  constructor
  · rintro ⟨m', hm', heq⟩
    obtain ⟨rfl, hnone⟩ := Prod.mk.injEq _ _ _ _ ▸ heq
    have := stats_none_iff.mp hnone
    rwa [seriesOf_length] at this
  · intro hlen
    refine ⟨m, hm, ?_⟩
    rw [stats_none_iff.mpr (by rwa [seriesOf_length])]

/-- Heart-rate and hrv bounds of every sample a successful hourly loop
emits. -/
theorem hourly_loop_bounds {p : Person} {hs : List ℕ} {rng : List ℚ}
    {samps : List HourlySample} {rng' : List ℚ}
    (h : hourly_loop p hs rng = some (samps, rng')) :
    ∀ s ∈ samps, (40 ≤ s.heart_rate ∧ s.heart_rate ≤ 100) ∧ 10 ≤ s.hrv := by
  induction hs generalizing rng samps rng' with
  | nil =>
      obtain ⟨rfl, rfl⟩ :=
        Prod.mk.injEq _ _ _ _ ▸ (Option.some.injEq _ _).mp h
      intro s hs
      exact absurd hs (List.not_mem_nil s)
  | cons a as ih =>
      unfold hourly_loop at h
      rw [Option.bind_eq_some] at h
      obtain ⟨hr, hhr, h⟩ := h
      rw [Option.bind_eq_some] at h
      obtain ⟨hv, hhv, h⟩ := h
      rw [Option.map_eq_some'] at h
      obtain ⟨pr, hpr, h⟩ := h
      obtain ⟨rfl, rfl⟩ := Prod.mk.injEq _ _ _ _ ▸ h
      intro s hs
      rcases List.mem_cons.mp hs with rfl | hs'
      · obtain ⟨h40, h100⟩ := get_resting_hr_bounds hhr
        have h10 := get_hrv_lb hhv
        refine ⟨⟨?_, ?_⟩, ?_⟩
        · exact_mod_cast le_roundTo_of_int_le 1 40 (by exact_mod_cast h40)
        · exact_mod_cast roundTo_le_of_le_int 1 100 (by exact_mod_cast h100)
        · exact_mod_cast le_roundTo_of_int_le 1 10 (by exact_mod_cast h10)
      · exact ih hpr s hs'

/-- C1 (as stated) is false: with stage draws deep 0.5, rem 0.4, awake 0.2
the emitted core_sleep_minutes of the generated record is -43.2, a negative
sleep duration, outside any physiologically valid [min, max] range.  The core
fraction is never clipped. -/
theorem C1_counterexample :
    ((generate_day pC1 0 1 drawsC1).map fun x => x.1.core_sleep_minutes) =
      some (-216/5) ∧ ((-216/5 : ℚ) < 0) := by
  exact ⟨by with_unfolding_all rfl, by norm_num⟩

/-- C1 (amended): every metric value that the generator clips does land in
its clip range in the emitted record - resting heart rate in [40, 100], hrv
at least 10, sleep duration in [3, 12], respiratory rate in [8, 22], spo2 in
[94, 100], steps at least 500, active calories at least 50, and the deep, rem
and awake stage minutes are nonnegative (their fractions are floored at
positive values).  The core stage minutes are excluded: they are not clipped
and can be negative (see the counterexample). -/
theorem C1_amended (p : Person) (dateIdx dow : ℕ) (rng : List ℚ)
    (r : BiometricRecord) (rng' : List ℚ)
    (h : generate_day p dateIdx dow rng = some (r, rng')) :
    (40 ≤ r.resting_heart_rate ∧ r.resting_heart_rate ≤ 100) ∧
    10 ≤ r.hrv_sdnn ∧
    (3 ≤ r.sleep_duration_hours ∧ r.sleep_duration_hours ≤ 12) ∧
    (8 ≤ r.respiratory_rate ∧ r.respiratory_rate ≤ 22) ∧
    (94 ≤ r.spo2 ∧ r.spo2 ≤ 100) ∧
    500 ≤ r.daily_steps ∧
    50 ≤ r.active_calories ∧
    (0 ≤ r.deep_sleep_minutes ∧ 0 ≤ r.rem_sleep_minutes ∧
      0 ≤ r.awake_minutes) ∧
    (∀ s ∈ r.hourly_samples,
      (40 ≤ s.heart_rate ∧ s.heart_rate ≤ 100) ∧ 10 ≤ s.hrv) := by
  simp only [generate_day] at h
  rw [Option.bind_eq_some] at h
  obtain ⟨sh, hsh, h⟩ := h
  rw [Option.bind_eq_some] at h
  obtain ⟨steps, hsteps, h⟩ := h
  rw [Option.bind_eq_some] at h
  obtain ⟨cal, hcal, h⟩ := h
  rw [Option.bind_eq_some] at h
  obtain ⟨resp, hresp, h⟩ := h
  rw [Option.bind_eq_some] at h
  obtain ⟨spv, hspv, h⟩ := h
  rw [Option.bind_eq_some] at h
  obtain ⟨rhr, hrhr, h⟩ := h
  rw [Option.bind_eq_some] at h
  obtain ⟨hv, hhv, h⟩ := h
  rw [Option.map_eq_some'] at h
  obtain ⟨pr, hpr, h⟩ := h
  obtain ⟨hre, -⟩ := Prod.mk.injEq _ _ _ _ ▸ h
  subst hre
  obtain ⟨hrhr40, hrhr100⟩ := get_resting_hr_bounds hrhr
  have hhv10 := get_hrv_lb hhv
  obtain ⟨hsh3, hsh12⟩ := get_sleep_duration_bounds hsh
  obtain ⟨hresp8, hresp22⟩ := get_respiratory_rate_bounds hresp
  obtain ⟨hspv94, hspv100⟩ := get_spo2_bounds hspv
  have hsteps500 := get_daily_steps_lb hsteps
  have hcal50 := get_active_calories_lb hcal
  have hshpos : (0:ℚ) ≤ sh := le_trans (by norm_num) hsh3
  obtain ⟨hdn, hrn, han⟩ := get_sleep_stages_nonneg hshpos
    (rng.tail.headD 0) (rng.tail.tail.headD 0) (rng.tail.tail.tail.headD 0)
  refine ⟨⟨?_, ?_⟩, ?_, ⟨?_, ?_⟩, ⟨?_, ?_⟩, ⟨?_, ?_⟩, ?_, ?_, ⟨?_, ?_, ?_⟩, ?_⟩
  · exact_mod_cast le_roundTo_of_int_le 1 40 (by exact_mod_cast hrhr40)
  · exact_mod_cast roundTo_le_of_le_int 1 100 (by exact_mod_cast hrhr100)
  · exact_mod_cast le_roundTo_of_int_le 1 10 (by exact_mod_cast hhv10)
  · exact_mod_cast le_roundTo_of_int_le 2 3 (by exact_mod_cast hsh3)
  · exact_mod_cast roundTo_le_of_le_int 2 12 (by exact_mod_cast hsh12)
  · exact_mod_cast le_roundTo_of_int_le 1 8 (by exact_mod_cast hresp8)
  · exact_mod_cast roundTo_le_of_le_int 1 22 (by exact_mod_cast hresp22)
  · exact_mod_cast le_roundTo_of_int_le 1 94 (by exact_mod_cast hspv94)
  · exact_mod_cast roundTo_le_of_le_int 1 100 (by exact_mod_cast hspv100)
  · exact hsteps500
  · exact_mod_cast le_roundTo_of_int_le 1 50 (by exact_mod_cast hcal50)
  · exact_mod_cast le_roundTo_of_int_le 1 0 (by exact_mod_cast hdn)
  · exact_mod_cast le_roundTo_of_int_le 1 0 (by exact_mod_cast hrn)
  · exact_mod_cast le_roundTo_of_int_le 1 0 (by exact_mod_cast han)
  · exact hourly_loop_bounds hpr

/-- Witness for C1_amended at a concrete person, day and draw stream. -/
theorem C1_amended_witness :
    generate_day pC1 0 1 drawsW = some (dayW.1, dayW.2) ∧
    ((40 ≤ dayW.1.resting_heart_rate ∧ dayW.1.resting_heart_rate ≤ 100) ∧
     10 ≤ dayW.1.hrv_sdnn ∧
     (3 ≤ dayW.1.sleep_duration_hours ∧ dayW.1.sleep_duration_hours ≤ 12) ∧
     (8 ≤ dayW.1.respiratory_rate ∧ dayW.1.respiratory_rate ≤ 22) ∧
     (94 ≤ dayW.1.spo2 ∧ dayW.1.spo2 ≤ 100) ∧
     500 ≤ dayW.1.daily_steps ∧
     50 ≤ dayW.1.active_calories ∧
     (0 ≤ dayW.1.deep_sleep_minutes ∧ 0 ≤ dayW.1.rem_sleep_minutes ∧
       0 ≤ dayW.1.awake_minutes) ∧
     (∀ s ∈ dayW.1.hourly_samples,
       (40 ≤ s.heart_rate ∧ s.heart_rate ≤ 100) ∧ 10 ≤ s.hrv)) :=
  ⟨by with_unfolding_all rfl,
   C1_amended pC1 0 1 drawsW dayW.1 dayW.2 (by with_unfolding_all rfl)⟩

/-- C2 (as stated) is false: with sleep_hours 7.123 and stage fractions
deep 0.15, rem 0.22, awake 0.08, the emitted (rounded) stage minutes sum to
427.4 while the emitted sleep_duration_hours 7.12 gives 427.2 total minutes;
the gap 0.2 is three orders of magnitude above the 1e-6 relative tolerance.
The rounding of the record fields (one decimal per stage, two for hours)
breaks the tolerance. -/
theorem C2_counterexample :
    ((generate_day pC1 0 1 drawsC2).map fun x =>
        (x.1.deep_sleep_minutes + x.1.rem_sleep_minutes +
         x.1.core_sleep_minutes + x.1.awake_minutes,
         x.1.sleep_duration_hours)) = some (2137/5, 178/25) ∧
    ¬(|(2137/5 : ℚ) - (178/25) * 60| ≤ (1/1000000) * |(178/25 : ℚ) * 60|) := by
  exact ⟨by with_unfolding_all rfl, by with_unfolding_all decide⟩

/-- C2 (amended): before rounding, the four stage minutes of
get_sleep_stages sum exactly to the total sleep minutes (the core fraction is
the complement of the other three); the emitted record fields, rounded to one
decimal per stage and two decimals for the hours, satisfy the identity only
to within half a minute in absolute terms. -/
theorem C2_amended :
    (∀ th dD rD aD : ℚ,
       (get_sleep_stages th dD rD aD).deep_minutes +
       (get_sleep_stages th dD rD aD).rem_minutes +
       (get_sleep_stages th dD rD aD).core_minutes +
       (get_sleep_stages th dD rD aD).awake_minutes = th * 60) ∧
    (∀ (p : Person) (dateIdx dow : ℕ) (rng : List ℚ)
       (r : BiometricRecord) (rng' : List ℚ),
       generate_day p dateIdx dow rng = some (r, rng') →
       |r.deep_sleep_minutes + r.rem_sleep_minutes + r.core_sleep_minutes +
         r.awake_minutes - r.sleep_duration_hours * 60| ≤ 1/2) := by
  refine ⟨get_sleep_stages_sum, ?_⟩
  intro p dateIdx dow rng r rng' h
  simp only [generate_day] at h
  rw [Option.bind_eq_some] at h
  obtain ⟨sh, hsh, h⟩ := h
  rw [Option.bind_eq_some] at h
  obtain ⟨steps, hsteps, h⟩ := h
  rw [Option.bind_eq_some] at h
  obtain ⟨cal, hcal, h⟩ := h
  rw [Option.bind_eq_some] at h
  obtain ⟨resp, hresp, h⟩ := h
  rw [Option.bind_eq_some] at h
  obtain ⟨spv, hspv, h⟩ := h
  rw [Option.bind_eq_some] at h
  obtain ⟨rhr, hrhr, h⟩ := h
  rw [Option.bind_eq_some] at h
  obtain ⟨hv, hhv, h⟩ := h
  rw [Option.map_eq_some'] at h
  obtain ⟨pr, hpr, h⟩ := h
  obtain ⟨hre, -⟩ := Prod.mk.injEq _ _ _ _ ▸ h
  subst hre
  set dD := rng.tail.headD 0
  set rD := rng.tail.tail.headD 0
  set aD := rng.tail.tail.tail.headD 0
  have hsum := get_sleep_stages_sum sh dD rD aD
  have h1 := abs_roundTo_sub_le 1 (get_sleep_stages sh dD rD aD).deep_minutes
  have h2 := abs_roundTo_sub_le 1 (get_sleep_stages sh dD rD aD).rem_minutes
  have h3 := abs_roundTo_sub_le 1 (get_sleep_stages sh dD rD aD).core_minutes
  have h4 := abs_roundTo_sub_le 1 (get_sleep_stages sh dD rD aD).awake_minutes
  have h5 := abs_roundTo_sub_le 2 sh
  rw [abs_le] at h1 h2 h3 h4 h5
  show |roundTo 1 (get_sleep_stages sh dD rD aD).deep_minutes +
        roundTo 1 (get_sleep_stages sh dD rD aD).rem_minutes +
        roundTo 1 (get_sleep_stages sh dD rD aD).core_minutes +
        roundTo 1 (get_sleep_stages sh dD rD aD).awake_minutes -
        roundTo 2 sh * 60| ≤ 1/2
  rw [abs_le]
  constructor <;> [skip; skip] <;>
    · norm_num at h1 h2 h3 h4 h5 ⊢
      linarith

/-- Witness for C2_amended at a concrete person, day and draw stream. -/
theorem C2_amended_witness :
    ((get_sleep_stages 7 0.5 0.4 0.2).deep_minutes +
     (get_sleep_stages 7 0.5 0.4 0.2).rem_minutes +
     (get_sleep_stages 7 0.5 0.4 0.2).core_minutes +
     (get_sleep_stages 7 0.5 0.4 0.2).awake_minutes = 7 * 60) ∧
    generate_day pC1 0 1 drawsW = some (dayW.1, dayW.2) ∧
    |dayW.1.deep_sleep_minutes + dayW.1.rem_sleep_minutes +
      dayW.1.core_sleep_minutes + dayW.1.awake_minutes -
      dayW.1.sleep_duration_hours * 60| ≤ 1/2 :=
  ⟨C2_amended.1 7 0.5 0.4 0.2, by with_unfolding_all rfl,
   C2_amended.2 pC1 0 1 drawsW dayW.1 dayW.2 (by with_unfolding_all rfl)⟩

/-- C3 (as stated) is false: the suppression guard protects only the by-sex,
by-age-group and by-activity-level cuts; the global cut assigns every metric
key unconditionally, so a below-threshold record set yields keys mapped to
null (None) instead of absent keys.  Here a four-record set (threshold is 5)
leaves the hrv_sdnn key present in the global tree with a null value. -/
theorem C3_counterexample :
    ("hrv_sdnn", (none : Option StatsEntry)) ∈ globalTree records4 ∧
    records4.length = 4 := by
  exact ⟨by with_unfolding_all decide, by with_unfolding_all rfl⟩

/-- C3 (amended): on the guarded cuts (by sex, by age group, by activity
level) an entry is emitted exactly when its backing partition holds at least
five records - a four-record partition is absent and a five-record partition
present - and every emitted entry records that count; the global cut instead
keeps every metric key and emits null exactly when the record set is below
threshold; and the by_hour cut is likewise unguarded: every encountered hour
keeps its key, whose value is null exactly when that hour's sample series is
below threshold.  The threshold is the constant 5, not configurable. -/
theorem C3_amended :
    (∀ (records : List BiometricRecord) (sex : String)
       (cell : List (String × StatsEntry)) (m : String) (e : StatsEntry),
       (sex, cell) ∈ bySexTree records → (m, e) ∈ cell →
       e.n = (records.filter fun r => r.sex == sex).length ∧ 5 ≤ e.n) ∧
    (∀ (records : List BiometricRecord) (sex m : String),
       sex ∈ ["male", "female"] → m ∈ metricsList →
       5 ≤ (records.filter fun r => r.sex == sex).length →
       ∃ cell, (sex, cell) ∈ bySexTree records ∧ ∃ e, (m, e) ∈ cell) ∧
    (∀ (records : List BiometricRecord) (g : String)
       (cell : List (String × StatsEntry)) (m : String) (e : StatsEntry),
       (g, cell) ∈ byAgeTree records → (m, e) ∈ cell →
       e.n = (records.filter fun r => r.age_group == g).length ∧ 5 ≤ e.n) ∧
    (∀ (records : List BiometricRecord) (g m : String),
       m ∈ metricsList →
       5 ≤ (records.filter fun r => r.age_group == g).length →
       ∃ cell, (g, cell) ∈ byAgeTree records ∧ ∃ e, (m, e) ∈ cell) ∧
    (∀ (records : List BiometricRecord) (l : String)
       (cell : List (String × StatsEntry)) (m : String) (e : StatsEntry),
       (l, cell) ∈ byActivityTree records → (m, e) ∈ cell →
       e.n = (records.filter fun r => r.activity_level == l).length ∧
         5 ≤ e.n) ∧
    (∀ (records : List BiometricRecord) (l m : String),
       m ∈ metricsList →
       5 ≤ (records.filter fun r => r.activity_level == l).length →
       ∃ cell, (l, cell) ∈ byActivityTree records ∧ ∃ e, (m, e) ∈ cell) ∧
    (∀ (records : List BiometricRecord) (m : String),
       records ≠ [] → m ∈ metricsList →
       (((m, (none : Option StatsEntry)) ∈ globalTree records) ↔
         records.length < 5)) ∧
    (∀ (records : List BiometricRecord) (f : HourlySample → ℚ) (h : ℕ),
       h ∈ hoursIn records →
       (toString h, stats (hourValues f records h)) ∈ byHourTree f records ∧
       (stats (hourValues f records h) = none ↔
         (hourValues f records h).length < 5)) := by
  refine ⟨?_, ?_, ?_, ?_, ?_, ?_, ?_, ?_⟩
  · intro records sex cell m e hcell hme
    unfold bySexTree at hcell
    rw [List.mem_map] at hcell
    obtain ⟨sex', -, heq⟩ := hcell
    obtain ⟨rfl, rfl⟩ := Prod.mk.injEq _ _ _ _ ▸ heq
    obtain ⟨-, hst⟩ := mem_metricCell.mp hme
    obtain ⟨hlen, hn⟩ := stats_length hst
    rw [seriesOf_length] at hlen hn
    exact ⟨hn, by omega⟩
  · intro records sex m hsex hm hlen
    refine ⟨metricCell (records.filter fun r => r.sex == sex),
      List.mem_map.mpr ⟨sex, hsex, rfl⟩, ?_⟩
    obtain ⟨e, he⟩ := stats_isSome_of_length
      (seriesOf (records.filter fun r => r.sex == sex) m)
      (by rwa [seriesOf_length])
    exact ⟨e, mem_metricCell.mpr ⟨hm, he⟩⟩
  · intro records g cell m e hcell hme
    unfold byAgeTree at hcell
    rw [List.mem_map] at hcell
    obtain ⟨g', -, heq⟩ := hcell
    obtain ⟨rfl, rfl⟩ := Prod.mk.injEq _ _ _ _ ▸ heq
    obtain ⟨-, hst⟩ := mem_metricCell.mp hme
    obtain ⟨hlen, hn⟩ := stats_length hst
    rw [seriesOf_length] at hlen hn
    exact ⟨hn, by omega⟩
  · intro records g m hm hlen
    have hne : (records.filter fun r => r.age_group == g) ≠ [] := by
      intro hnil
      rw [hnil] at hlen
      simp at hlen
    obtain ⟨r, hr⟩ := List.exists_mem_of_ne_nil _ hne
    obtain ⟨hrrec, hbeq⟩ := List.mem_filter.mp hr
    have hkey : g ∈ uniqueFirst (records.map fun r => r.age_group) :=
      mem_uniqueFirst_of_mem
        (List.mem_map.mpr ⟨r, hrrec, eq_of_beq hbeq⟩)
    refine ⟨metricCell (records.filter fun r => r.age_group == g),
      List.mem_map.mpr ⟨g, hkey, rfl⟩, ?_⟩
    obtain ⟨e, he⟩ := stats_isSome_of_length
      (seriesOf (records.filter fun r => r.age_group == g) m)
      (by rwa [seriesOf_length])
    exact ⟨e, mem_metricCell.mpr ⟨hm, he⟩⟩
  · intro records l cell m e hcell hme
    unfold byActivityTree at hcell
    rw [List.mem_map] at hcell
    obtain ⟨l', -, heq⟩ := hcell
    obtain ⟨rfl, rfl⟩ := Prod.mk.injEq _ _ _ _ ▸ heq
    obtain ⟨-, hst⟩ := mem_metricCell.mp hme
    obtain ⟨hlen, hn⟩ := stats_length hst
    rw [seriesOf_length] at hlen hn
    exact ⟨hn, by omega⟩
  · intro records l m hm hlen
    have hne : (records.filter fun r => r.activity_level == l) ≠ [] := by
      intro hnil
      rw [hnil] at hlen
      simp at hlen
    obtain ⟨r, hr⟩ := List.exists_mem_of_ne_nil _ hne
    obtain ⟨hrrec, hbeq⟩ := List.mem_filter.mp hr
    have hkey : l ∈ uniqueFirst (records.map fun r => r.activity_level) :=
      mem_uniqueFirst_of_mem
        (List.mem_map.mpr ⟨r, hrrec, eq_of_beq hbeq⟩)
    refine ⟨metricCell (records.filter fun r => r.activity_level == l),
      List.mem_map.mpr ⟨l, hkey, rfl⟩, ?_⟩
    obtain ⟨e, he⟩ := stats_isSome_of_length
      (seriesOf (records.filter fun r => r.activity_level == l) m)
      (by rwa [seriesOf_length])
    exact ⟨e, mem_metricCell.mpr ⟨hm, he⟩⟩
  · intro records m hne hm
    exact mem_globalTree_none_iff hne hm
  · intro records f h hh
    refine ⟨?_, stats_none_iff⟩
    unfold byHourTree
    exact List.mem_map.mpr ⟨h, hh, rfl⟩

/-- Witness for C3_amended: the below-threshold four-record set instantiates
the global-cut clause, the nine-record male set instantiates by-sex presence
at threshold, the same set instantiates by-age presence, and the four-record
set with hourly samples instantiates the by_hour keep-key/emit-null clause. -/
theorem C3_amended_witness :
    (records4 ≠ [] ∧ "hrv_sdnn" ∈ metricsList ∧
      ((("hrv_sdnn", (none : Option StatsEntry)) ∈ globalTree records4) ↔
        records4.length < 5)) ∧
    ("male" ∈ (["male", "female"] : List String) ∧
      5 ≤ (records9.filter fun r => r.sex == "male").length ∧
      ∃ cell, ("male", cell) ∈ bySexTree records9 ∧
        ∃ e, ("hrv_sdnn", e) ∈ cell) ∧
    (5 ≤ (records9.filter fun r => r.age_group == "18-29").length ∧
      ∃ cell, ("18-29", cell) ∈ byAgeTree records9 ∧
        ∃ e, ("hrv_sdnn", e) ∈ cell) ∧
    ((7 : ℕ) ∈ hoursIn recordsH ∧
      (("7", stats (hourValues (fun s => s.heart_rate) recordsH 7)) ∈
         byHourTree (fun s => s.heart_rate) recordsH ∧
       (stats (hourValues (fun s => s.heart_rate) recordsH 7) = none ↔
         (hourValues (fun s => s.heart_rate) recordsH 7).length < 5))) :=
  ⟨⟨by with_unfolding_all decide, by with_unfolding_all decide,
    C3_amended.2.2.2.2.2.2.1 records4 "hrv_sdnn"
      (by with_unfolding_all decide) (by with_unfolding_all decide)⟩,
   ⟨by with_unfolding_all decide, by with_unfolding_all decide,
    C3_amended.2.1 records9 "male" "hrv_sdnn" (by with_unfolding_all decide)
      (by with_unfolding_all decide) (by with_unfolding_all decide)⟩,
   ⟨by with_unfolding_all decide,
    C3_amended.2.2.2.1 records9 "18-29" "hrv_sdnn"
      (by with_unfolding_all decide) (by with_unfolding_all decide)⟩,
   ⟨by with_unfolding_all decide,
    C3_amended.2.2.2.2.2.2.2 recordsH (fun s => s.heart_rate) 7
      (by with_unfolding_all decide)⟩⟩

/-- C4: the claim matches the specified intent, but the code cannot cover
the 12 demographic cells: main() assigns age_groups[i mod 6] and sex by the
parity of i, and since the parity of i mod 6 equals the parity of i, only the
six cells whose age-band index parity matches the sex are ever populated.
With count = 12 (indeed with any count) the cell (30-39, male) receives no
entity, and exactly 6 of the 12 cells are hit. -/
theorem C4_code_eval :
    ((List.range 12).filter fun i => cohortCell i == ("30-39", "male")) = [] ∧
    ((List.range 12).map cohortCell).dedup.length = 6 := by
  exact ⟨by with_unfolding_all rfl, by with_unfolding_all rfl⟩

/-- C5 (as stated) is false: the empirical stats() entry names its central
percentile median (and carries min and max), while a parametric entry names
it p50, so the two paths do not produce the same field-name set and a
consumer can tell them apart. -/
theorem C5_counterexample :
    "median" ∈ stats_keys ∧
    "median" ∉ (nhanes_by_sex_entry cholConfig "male").map Prod.fst ∧
    ((nhanes_by_sex_entry cholConfig "male").map Prod.fst).toFinset ≠
      stats_keys.toFinset := by
  refine ⟨by with_unfolding_all decide, by with_unfolding_all decide,
    by with_unfolding_all decide⟩

/-- C5 (amended): both entry kinds expose n, mean, std and the six shared
percentile names p5, p10, p25, p75, p90, p95, but the empirical entry
additionally carries median, min and max while the parametric by-sex entry
instead carries p50 (and the parametric global entry also carries unit, min
and max); the shapes differ exactly there. -/
theorem C5_amended :
    (∀ (c : NConfig) (sex : String),
       (nhanes_by_sex_entry c sex).map Prod.fst = nhanes_by_sex_keys) ∧
    stats_keys.toFinset ∩ nhanes_by_sex_keys.toFinset =
      {"n", "mean", "std", "p5", "p10", "p25", "p75", "p90", "p95"} ∧
    stats_keys.toFinset \ nhanes_by_sex_keys.toFinset =
      {"median", "min", "max"} ∧
    nhanes_by_sex_keys.toFinset \ stats_keys.toFinset = {"p50"} ∧
    nhanes_global_keys.toFinset \ stats_keys.toFinset = {"unit", "p50"} := by
  refine ⟨fun c sex => rfl, by with_unfolding_all decide,
    by with_unfolding_all decide, by with_unfolding_all decide,
    by with_unfolding_all decide⟩

/-- C6: percentile monotonicity holds on both paths.  Every emitted empirical
entry satisfies p5 ≤ p10 ≤ p25 ≤ median ≤ p75 ≤ p90 ≤ p95 (np.percentile
with linear interpolation is monotone in the quantile over a sorted sample),
and the parametric generate_percentiles entry satisfies the same chain with
p50 in the median position whenever the standard deviation is nonnegative
(rounding to three decimals is monotone). -/
theorem C6_monotone :
    (∀ (xs : List ℚ) (e : StatsEntry), stats xs = some e →
       e.p5 ≤ e.p10 ∧ e.p10 ≤ e.p25 ∧ e.p25 ≤ e.median ∧
       e.median ≤ e.p75 ∧ e.p75 ≤ e.p90 ∧ e.p90 ≤ e.p95) ∧
    (∀ mean std : ℚ, 0 ≤ std →
       (generate_percentiles mean std).p5 ≤ (generate_percentiles mean std).p10 ∧
       (generate_percentiles mean std).p10 ≤ (generate_percentiles mean std).p25 ∧
       (generate_percentiles mean std).p25 ≤ (generate_percentiles mean std).p50 ∧
       (generate_percentiles mean std).p50 ≤ (generate_percentiles mean std).p75 ∧
       (generate_percentiles mean std).p75 ≤ (generate_percentiles mean std).p90 ∧
       (generate_percentiles mean std).p90 ≤ (generate_percentiles mean std).p95) := by
  constructor
  · intro xs e h
    obtain ⟨hlen, -⟩ := stats_length h
    obtain ⟨h5, h10, h25, hmed, h75, h90, h95⟩ := stats_percentile_fields h
    have hs : (sortVals xs).Sorted (· ≤ ·) := List.sorted_insertionSort _ xs
    have hl : 1 ≤ (sortVals xs).length := by
      unfold sortVals
      rw [List.length_insertionSort]
      omega
    rw [h5, h10, h25, hmed, h75, h90, h95]
    unfold percentileOf
    refine ⟨?_, ?_, ?_, ?_, ?_, ?_⟩ <;>
      exact percentileSorted_mono hs hl (by norm_num) (by norm_num) (by norm_num)
  · intro mean std h
    unfold generate_percentiles
    refine ⟨?_, ?_, ?_, ?_, ?_, ?_⟩ <;> exact roundTo_mono 3 (by linarith)

/-- Witness for C6_monotone: the empirical entry of [1, 2, 3, 4, 5] and the
parametric entry of mean 10, std 2. -/
theorem C6_monotone_witness :
    (stats xs5 = some statsW ∧
     (statsW.p5 ≤ statsW.p10 ∧ statsW.p10 ≤ statsW.p25 ∧
      statsW.p25 ≤ statsW.median ∧ statsW.median ≤ statsW.p75 ∧
      statsW.p75 ≤ statsW.p90 ∧ statsW.p90 ≤ statsW.p95)) ∧
    ((0:ℚ) ≤ 2 ∧
     ((generate_percentiles 10 2).p5 ≤ (generate_percentiles 10 2).p10 ∧
      (generate_percentiles 10 2).p10 ≤ (generate_percentiles 10 2).p25 ∧
      (generate_percentiles 10 2).p25 ≤ (generate_percentiles 10 2).p50 ∧
      (generate_percentiles 10 2).p50 ≤ (generate_percentiles 10 2).p75 ∧
      (generate_percentiles 10 2).p75 ≤ (generate_percentiles 10 2).p90 ∧
      (generate_percentiles 10 2).p90 ≤ (generate_percentiles 10 2).p95)) :=
  ⟨⟨by with_unfolding_all rfl,
    C6_monotone.1 xs5 statsW (by with_unfolding_all rfl)⟩,
   ⟨by norm_num, C6_monotone.2 10 2 (by norm_num)⟩⟩

/-- C7: for the stratified, modulated metrics, the generated value before
clipping is exactly base mean times (1 + individual offset) times the
circadian or day-of-week multiplier, plus the realised noise draw; and the
standard deviation handed to the noise sampler is 0.3 (resting heart rate)
respectively 0.5 (daily steps) of the base distribution's standard
deviation - both fractions strictly below 1. -/
theorem C7_formula :
    (∀ (p : Person) (hour : ℕ) (noise : ℚ) (d : Dist) (c : ℚ),
       List.lookup p.activity_level resting_hr_params = some d →
       circadian_heart_rate.get? hour = some c →
       get_resting_hr p hour noise =
         some (max 40 (min 100 (d.mean * (1 + p.hr_offset) * c + noise))) ∧
       get_resting_hr_noise_sigma p.activity_level = some (d.std * 0.3) ∧
       (0.3 : ℚ) < 1) ∧
    (∀ (p : Person) (dow : ℕ) (noise : ℚ) (d : Dist) (w : ℚ),
       List.lookup p.activity_level daily_steps_params = some d →
       steps_multiplier.get? dow = some w →
       get_daily_steps p dow noise =
         some (max 500 (ratTrunc (d.mean * (1 + p.activity_offset) * w + noise))) ∧
       get_daily_steps_noise_sigma p.activity_level = some (d.std * 0.5) ∧
       (0.5 : ℚ) < 1) := by
  constructor
  · intro p hour noise d c hd hc
    refine ⟨?_, ?_, by norm_num⟩
    · unfold get_resting_hr
      rw [hd, Option.some_bind, hc, Option.map_some']
    · unfold get_resting_hr_noise_sigma
      rw [hd, Option.map_some']
  · intro p dow noise d w hd hw
    refine ⟨?_, ?_, by norm_num⟩
    · unfold get_daily_steps
      rw [hd, Option.some_bind, hw, Option.map_some']
    · unfold get_daily_steps_noise_sigma
      rw [hd, Option.map_some']

/-- Witness for C7_formula: the moderate activity row at hour 7 and Tuesday. -/
theorem C7_formula_witness :
    (List.lookup pC1.activity_level resting_hr_params = some (⟨68, 7⟩ : Dist) ∧
     circadian_heart_rate.get? 7 = some 0.98 ∧
     (get_resting_hr pC1 7 0 =
        some (max 40 (min 100 ((68:ℚ) * (1 + 0) * 0.98 + 0))) ∧
      get_resting_hr_noise_sigma pC1.activity_level = some ((7:ℚ) * 0.3) ∧
      (0.3 : ℚ) < 1)) ∧
    (List.lookup pC1.activity_level daily_steps_params =
       some (⟨7000, 2000⟩ : Dist) ∧
     steps_multiplier.get? 1 = some 1.00 ∧
     (get_daily_steps pC1 1 0 =
        some (max 500 (ratTrunc ((7000:ℚ) * (1 + 0) * 1.00 + 0))) ∧
      get_daily_steps_noise_sigma pC1.activity_level = some ((2000:ℚ) * 0.5) ∧
      (0.5 : ℚ) < 1)) :=
  ⟨⟨by with_unfolding_all rfl, by with_unfolding_all rfl,
    C7_formula.1 pC1 7 0 ⟨68, 7⟩ 0.98 (by with_unfolding_all rfl)
      (by with_unfolding_all rfl)⟩,
   ⟨by with_unfolding_all rfl, by with_unfolding_all rfl,
    C7_formula.2 pC1 1 0 ⟨7000, 2000⟩ 1.00 (by with_unfolding_all rfl)
      (by with_unfolding_all rfl)⟩⟩

/-- C8 (as stated) is false: the HealthKit generator's per-metric lookup has
no fallback.  For a person whose age-group label is absent from the hrv_sdnn
table the nested lookup fails (none) and get_hrv fails with it, rather than
falling back to an unconditional distribution - indeed the hrv_sdnn table
declares no unconditional entry at all. -/
theorem C8_counterexample :
    hrvLookup "80+" "male" = none ∧
    get_hrv pBadAge 3 0 = none ∧
    List.lookup "global" hrv_sdnn_params = none := by
  refine ⟨by with_unfolding_all rfl, by with_unfolding_all rfl,
    by with_unfolding_all rfl⟩

/-- C8 (amended): the global-fallback behaviour is real but lives only in
the parametric biomarker generator, whose by-sex and by-age lookups fall
back to the global (mean, std) when the stratum key is absent; the HealthKit
generator's lookups index the parameter tables directly, and a missing
stratum key propagates as a failure of the whole generation call. -/
theorem C8_amended :
    (∀ (c : NConfig) (sex : String), List.lookup sex c.by_sex = none →
       sexDist c sex = ⟨c.glob.mean, c.glob.std⟩) ∧
    (∀ (c : NConfig) (g : String), List.lookup g c.by_age = none →
       ageDist c g = ⟨c.glob.mean, c.glob.std⟩) ∧
    (∀ (p : Person) (hour : ℕ) (noise : ℚ),
       hrvLookup p.age_group p.sex = none → get_hrv p hour noise = none) := by
  refine ⟨?_, ?_, ?_⟩
  · intro c sex h
    unfold sexDist
    rw [h]
    rfl
  · intro c g h
    unfold ageDist
    rw [h]
    rfl
  · intro p hour noise h
    unfold get_hrv
    rw [h]
    rfl

/-- Witness for C8_amended: the total_cholesterol configuration with an
unknown sex label, and the person with the unknown age group. -/
theorem C8_amended_witness :
    (List.lookup "other" cholConfig.by_sex = none ∧
     sexDist cholConfig "other" = ⟨cholConfig.glob.mean, cholConfig.glob.std⟩) ∧
    (hrvLookup pBadAge.age_group pBadAge.sex = none ∧
     get_hrv pBadAge 3 0 = none) :=
  ⟨⟨by with_unfolding_all rfl,
    C8_amended.1 cholConfig "other" (by with_unfolding_all rfl)⟩,
   ⟨by with_unfolding_all rfl,
    C8_amended.2.2 pBadAge 3 0 (by with_unfolding_all rfl)⟩⟩

/-- C9: generate_person_data is a pure function of the entity, the calendar
anchors and the realised draw stream; two runs over equal persons and equal
stream states produce bit-identical record lists (the embedding consumes
randomness only through the explicit stream, mirroring the source, whose only
stochastic inputs are the seeded global generators). -/
theorem C9_deterministic (p₁ p₂ : Person) (sIdx sDow days : ℕ)
    (rng₁ rng₂ : List ℚ) (hp : p₁ = p₂) (hr : rng₁ = rng₂) :
    generate_person_data p₁ sIdx sDow days rng₁ =
      generate_person_data p₂ sIdx sDow days rng₂ := by
  subst hp
  subst hr
  rfl

/-- Witness for C9_deterministic at a concrete person and stream. -/
theorem C9_deterministic_witness :
    pC1 = pC1 ∧ drawsW = drawsW ∧
    generate_person_data pC1 0 0 1 drawsW =
      generate_person_data pC1 0 0 1 drawsW :=
  ⟨rfl, rfl, C9_deterministic pC1 pC1 0 0 1 drawsW drawsW rfl rfl⟩

/-- C10: every record of a successful run carries exactly the four hourly
samples tagged 7, 12, 18, 22 in that order (each structurally carrying a
heart_rate and an hrv field), and consequently every key of either by_hour
subtree built from those records is one of "7", "12", "18", "22". -/
theorem C10_hourly (p : Person) (sIdx sDow days : ℕ) (rng : List ℚ)
    (recs : List BiometricRecord)
    (h : generate_person_data p sIdx sDow days rng = some recs) :
    (∀ r ∈ recs, r.hourly_samples.map (fun s => s.hour) = [7, 12, 18, 22]) ∧
    (∀ (f : HourlySample → ℚ) (k : String) (v : Option StatsEntry),
       (k, v) ∈ byHourTree f recs → k ∈ ["7", "12", "18", "22"]) := by
  have h1 := genLoop_hours
    (show genLoop p sIdx sDow days 0 rng = some recs from h)
  refine ⟨h1, ?_⟩
  intro f k v hkv
  unfold byHourTree at hkv
  rw [List.mem_map] at hkv
  obtain ⟨hr, hhr, heq⟩ := hkv
  obtain ⟨hk, -⟩ := Prod.mk.injEq _ _ _ _ ▸ heq
  subst hk
  have hmem : hr ∈ ((recs.flatMap fun r => r.hourly_samples).map
      fun s => s.hour) := mem_uniqueFirst hhr
  rw [List.mem_map] at hmem
  obtain ⟨s, hsmem, rfl⟩ := hmem
  rw [List.mem_flatMap] at hsmem
  obtain ⟨r, hrmem, hsr⟩ := hsmem
  have hhour : s.hour ∈ r.hourly_samples.map (fun s => s.hour) :=
    List.mem_map.mpr ⟨s, hsr, rfl⟩
  rw [h1 r hrmem] at hhour
  simp only [List.mem_cons, List.not_mem_nil, or_false] at hhour
  rcases hhour with h' | h' | h' | h' <;> rw [h'] <;> with_unfolding_all decide

/-- Witness for C10_hourly on a concrete one-day run. -/
theorem C10_hourly_witness :
    generate_person_data pC1 0 0 1 drawsW = some genW ∧
    ((∀ r ∈ genW, r.hourly_samples.map (fun s => s.hour) = [7, 12, 18, 22]) ∧
     (∀ (f : HourlySample → ℚ) (k : String) (v : Option StatsEntry),
        (k, v) ∈ byHourTree f genW → k ∈ ["7", "12", "18", "22"])) :=
  ⟨by with_unfolding_all rfl,
   C10_hourly pC1 0 0 1 drawsW genW (by with_unfolding_all rfl)⟩

end Flo
